import Mathlib

/-!
# Verification of the bid-admission pipeline of the Mobile-Money Online Auction System

A shallow embedding of the bid-admission pipeline of the auction marketplace:
the data model (`Item`, `Bid`, `BidCooldown`, `FraudAlert`), the cooldown store
(`BidCooldown.get_active_cooldown`, `auctions/models.py`), the rapid-bidding gate
(`RapidBiddingDetector.check_rapid_bidding`, `auctions/rapid_bidding.py`), the
fraud-rule engine (`FraudDetectionService.analyze_bid`, `auctions/fraud_detection.py`)
and the view-layer orchestration (`place_bid` and `buy_now`, `auctions/views.py`).

Modelling conventions:
* timestamps are seconds since an arbitrary epoch (`Int`); Python `timedelta`
  arguments are converted to seconds at the call sites;
* `Decimal` money amounts are rationals (`ℚ`);
* the database is an explicit record of lists (`DB`); every Django ORM query is
  translated to a `List` computation over it, and every write returns a new `DB`;
* presentation-only columns (image fields, descriptions, JSON `data` payloads,
  `WalletTransaction`/`TransactionLog` ledger rows) are not part of the model;
  user-facing message strings keep the literal text of the source except that
  interpolated number formatting (`:,.0f`) is elided.
-/

namespace AuctionSys

/-- `Item.STATUS_CHOICES` (`auctions/models.py`). -/
inductive Status where
  | active
  | sold
  | expired
  | cancelled
  | privateItem
  | off_sale
deriving DecidableEq, Repr

/-- The columns of `auctions.models.Item` that the bid-admission pipeline reads. -/
structure Item where
  id : Nat
  seller : Nat
  current_price : ℚ
  min_increment : ℚ
  buy_now_price : Option ℚ
  status : Status
  created_at : Int
  end_time : Int
  bid_count : Nat
  winner : Option Nat
deriving DecidableEq, Repr

/-- The columns of `auctions.models.Bid` the pipeline reads. -/
structure Bid where
  id : Nat
  item : Nat
  bidder : Nat
  amount : ℚ
  bid_time : Int
  is_winning : Bool
deriving DecidableEq, Repr

/-- `BidCooldown.COOLDOWN_TYPE_CHOICES` (`auctions/models.py`). -/
inductive CooldownType where
  | soft_challenge
  | hard_cooldown
  | captcha_failed
  | suspended
deriving DecidableEq, Repr

/-- The columns of `auctions.models.BidCooldown`; `item = none` is a global cooldown. -/
structure BidCooldown where
  user : Nat
  item : Option Nat
  cooldown_type : CooldownType
  reason : String
  expires_at : Int
  created_at : Int
  is_active : Bool
  captcha_required : Bool
  captcha_passed : Bool
  failed_attempts : Nat
deriving DecidableEq, Repr

/-- `FraudAlert.SEVERITY_CHOICES` (`auctions/models.py`). -/
inductive Severity where
  | low
  | medium
  | high
  | critical
deriving DecidableEq, Repr

/-- The columns of `auctions.models.FraudAlert` the pipeline reads or writes
(`description` and `data` are presentation-only and not modelled). -/
structure FraudAlert where
  user : Nat
  item : Option Nat
  alert_type : String
  severity : Severity
  is_resolved : Bool
deriving DecidableEq, Repr

/-- `django.contrib.auth.models.User` together with the `users.models.Profile`
bypass flags read by `place_bid`. -/
structure UserRec where
  id : Nat
  date_joined : Int
  is_superuser : Bool
  bypass_all_restrictions : Bool
  bypass_rapid_bidding_check : Bool
  bypass_account_age_check : Bool
  bypass_fraud_detection : Bool
deriving DecidableEq, Repr

/-- `users.models.Wallet` (only the balance is read by `buy_now`). -/
structure Wallet where
  user : Nat
  balance : ℚ
deriving DecidableEq, Repr

/-- The relational store: one list per table. -/
structure DB where
  items : List Item
  bids : List Bid
  cooldowns : List BidCooldown
  alerts : List FraudAlert
  wallets : List Wallet
deriving DecidableEq, Repr

/-- The named thresholds read from `django.conf.settings`. The settings module is
not part of the repository snapshot; each value is therefore a parameter, and the
claims that pin concrete values state them as hypotheses. All windows are stored
in the unit the setting name declares and converted to seconds at use sites. -/
structure Settings where
  RAPID_BID_SOFT_WINDOW_2MIN : Int
  RAPID_BID_SOFT_THRESHOLD_2MIN : Nat
  RAPID_BID_SOFT_WINDOW_5MIN : Int
  RAPID_BID_SOFT_THRESHOLD_5MIN : Nat
  RAPID_BID_HARD_WINDOW_5MIN : Int
  RAPID_BID_HARD_THRESHOLD_5MIN : Nat
  RAPID_BID_HARD_WINDOW_20SEC : Int
  RAPID_BID_HARD_THRESHOLD_20SEC : Nat
  RAPID_BID_COOLDOWN_DURATION : Int
  AUCTION_ENDGAME_WINDOW_MINUTES : Int
  AUCTION_ENDGAME_MULTIPLIER : ℚ
  GLOBAL_VELOCITY_SOFT_WINDOW_MINUTES : Int
  GLOBAL_VELOCITY_SOFT_THRESHOLD_BIDS : Nat
  GLOBAL_VELOCITY_SOFT_THRESHOLD_AUCTIONS : Nat
  GLOBAL_VELOCITY_HARD_WINDOW_MINUTES : Int
  GLOBAL_VELOCITY_HARD_THRESHOLD_BIDS : Nat
  GLOBAL_VELOCITY_HARD_THRESHOLD_AUCTIONS : Nat
  MIN_INCREMENT_WINDOW_SECONDS : Int
  MIN_INCREMENT_THRESHOLD_BIDS : Nat
  HIGH_VALUE_BID_THRESHOLD : ℚ
  MIN_ACCOUNT_AGE_FOR_HIGH_BIDS : Int
  RAPID_BIDDING_WINDOW_MINUTES : Int
  RAPID_BIDDING_THRESHOLD : Nat
  BID_SNIPING_WINDOW_SECONDS : Int
  BID_SNIPING_HISTORY_DAYS : Int
  BID_SNIPING_THRESHOLD : Nat
  UNUSUAL_BID_MULTIPLIER : ℚ
  BID_PATTERN_MIN_HISTORY : Nat
  BID_PATTERN_DEVIATION_MULTIPLIER : ℚ
  SHILL_MIN_TOTAL_BIDS : Nat
  SHILL_MIN_SELLER_BIDS : Nat
  SHILL_AFFINITY_THRESHOLD : ℚ
  LOW_WIN_RATIO_MIN_BIDS : Nat
  LOW_WIN_RATIO_THRESHOLD : ℚ
  SELLER_AFFINITY_MIN_AUCTIONS : Nat
  SELLER_AFFINITY_PARTICIPATION_THRESHOLD : ℚ
  TIMING_PATTERN_EARLY_THRESHOLD : ℚ
  TIMING_PATTERN_LATE_THRESHOLD : ℚ
  TIMING_PATTERN_MIN_EARLY_BIDS : Nat
  TIMING_PATTERN_LATE_RATIO_THRESHOLD : ℚ
  COLLUSIVE_COMMON_ITEMS_THRESHOLD : Nat
  COLLUSIVE_SUSPICIOUS_PAIRS_THRESHOLD : Nat
  OPENAI_API_KEY_set : Bool

/-! ## CooldownStore (`auctions/models.py`, `BidCooldown`) -/

/-- `BidCooldown.cleanup_expired`: bulk-deactivate every active cooldown whose
`expires_at` has passed (`expires_at__lte=timezone.now()`). -/
def cleanup_expired (now : Int) (db : DB) : DB :=
  { db with cooldowns := db.cooldowns.map fun c =>
      if c.is_active ∧ c.expires_at ≤ now then { c with is_active := false } else c }

/-- `order_by('-created_at').first()`: the row with the greatest `created_at`
(ties resolved to the earliest row, which the SQL engine leaves unspecified). -/
def mostRecentCooldown : List BidCooldown → Option BidCooldown
  | [] => none
  | c :: cs =>
    match mostRecentCooldown cs with
    | none => some c
    | some m => if m.created_at > c.created_at then some m else some c

/-- The filter of `BidCooldown.get_active_cooldown`: user matches, `is_active`,
`expires_at__gt=now`, and the row is scoped to the given item or global
(`Q(item=item) | Q(item__isnull=True)`); with no item, global rows only. -/
def cooldownMatches (now : Int) (user : Nat) (item : Option Nat) (c : BidCooldown) : Bool :=
  decide (c.user = user) && c.is_active && decide (now < c.expires_at) &&
    (match item with
     | some i => decide (c.item = some i) || decide (c.item = none)
     | none => decide (c.item = none))

/-- `BidCooldown.get_active_cooldown`: lazily deactivate expired rows, then return
the most recent active, unexpired cooldown matching the user and the item-or-global
scope. Returns the (possibly) mutated store alongside the row. -/
def get_active_cooldown (now : Int) (db : DB) (user : Nat) (item : Option Nat) :
    Option BidCooldown × DB :=
  let db := cleanup_expired now db
  (mostRecentCooldown (db.cooldowns.filter (cooldownMatches now user item)), db)

/-! ### Lemmas about the cooldown store -/

theorem mostRecentCooldown_eq_none {l : List BidCooldown} :
    mostRecentCooldown l = none ↔ l = [] := by
  cases l with
  | nil => simp [mostRecentCooldown]
  | cons c cs =>
    simp only [mostRecentCooldown]
    constructor
    · intro h
      cases hm : mostRecentCooldown cs <;> rw [hm] at h <;> dsimp only at h
      · simp at h
      · split at h <;> simp at h
    · intro h; exact List.noConfusion h

theorem mostRecentCooldown_mem {l : List BidCooldown} :
    ∀ {m : BidCooldown}, mostRecentCooldown l = some m → m ∈ l := by
  induction l with
  | nil => intro m h; simp [mostRecentCooldown] at h
  | cons c cs ih =>
    intro m h
    simp only [mostRecentCooldown] at h
    cases hm : mostRecentCooldown cs with
    | none => rw [hm] at h; simp at h; simp [h]
    | some m' =>
      rw [hm] at h
      dsimp only at h
      by_cases hcmp : m'.created_at > c.created_at
      · rw [if_pos hcmp] at h; simp at h; subst h
        exact List.mem_cons_of_mem _ (ih hm)
      · rw [if_neg hcmp] at h; simp at h; simp [h]

theorem mostRecentCooldown_maximal {l : List BidCooldown} :
    ∀ {m : BidCooldown}, mostRecentCooldown l = some m →
      ∀ x ∈ l, x.created_at ≤ m.created_at := by
  induction l with
  | nil => intro m h; simp [mostRecentCooldown] at h
  | cons c cs ih =>
    intro m h x hx
    simp only [mostRecentCooldown] at h
    cases hm : mostRecentCooldown cs with
    | none =>
      rw [hm] at h; simp at h
      have hnil : cs = [] := mostRecentCooldown_eq_none.mp hm
      subst hnil
      rcases List.mem_cons.mp hx with hxc | hxcs
      · simp [hxc, h]
      · simp at hxcs
    | some m' =>
      rw [hm] at h
      dsimp only at h
      by_cases hcmp : m'.created_at > c.created_at
      · rw [if_pos hcmp] at h; simp at h; subst h
        rcases List.mem_cons.mp hx with hxc | hxcs
        · subst hxc; omega
        · exact ih hm x hxcs
      · rw [if_neg hcmp] at h; simp at h; subst h
        rcases List.mem_cons.mp hx with hxc | hxcs
        · subst hxc; exact le_refl _
        · exact le_trans (ih hm x hxcs) (by omega)

theorem mostRecentCooldown_isSome {l : List BidCooldown} (h : l ≠ []) :
    (mostRecentCooldown l).isSome := by
  cases l with
  | nil => exact absurd rfl h
  | cons c cs =>
    simp only [mostRecentCooldown]
    cases mostRecentCooldown cs with
    | none => simp
    | some m => simp only; split <;> simp

/-- Any row that is still active after `cleanup_expired` is a row of the original
store (lazy expiry only flips `is_active` on expired rows). -/
theorem mem_of_active_cleanup {now : Int} {db : DB} {c : BidCooldown}
    (hmem : c ∈ (cleanup_expired now db).cooldowns) (hact : c.is_active = true) :
    c ∈ db.cooldowns := by
  simp only [cleanup_expired, List.mem_map] at hmem
  obtain ⟨c', hc', heq⟩ := hmem
  by_cases h : c'.is_active ∧ c'.expires_at ≤ now
  · rw [if_pos h] at heq; rw [← heq] at hact; simp at hact
  · rw [if_neg h] at heq; exact heq ▸ hc'


/-! ## RapidBiddingGate (`auctions/rapid_bidding.py`, `RapidBiddingDetector`) -/

/-- The tuple returned by `RapidBiddingDetector.check_rapid_bidding`:
`(is_allowed, action_type, message, cooldown_duration)`. -/
structure GateRes where
  is_allowed : Bool
  action : String
  message : String
  cooldown_duration : Option Int
deriving DecidableEq, Repr

/-- The string value a `cooldown_type` column stores. -/
def ctypeStr : CooldownType → String
  | .soft_challenge => "soft_challenge"
  | .hard_cooldown => "hard_cooldown"
  | .captcha_failed => "captcha_failed"
  | .suspended => "suspended"

/-- `RapidBiddingDetector._is_auction_endgame`: the item is active and within the
last `AUCTION_ENDGAME_WINDOW_MINUTES` of its `end_time`
(`0 < time_remaining <= endgame_seconds`). -/
def is_auction_endgame (s : Settings) (now : Int) (item : Item) : Bool :=
  decide (item.status = Status.active) &&
    (decide (0 < item.end_time - now) &&
      decide (item.end_time - now ≤ s.AUCTION_ENDGAME_WINDOW_MINUTES * 60))

/-- `multiplier = settings.AUCTION_ENDGAME_MULTIPLIER if is_endgame else 1.0`. -/
def endgameMultiplier (s : Settings) (now : Int) (item : Item) : ℚ :=
  if is_auction_endgame s now item then s.AUCTION_ENDGAME_MULTIPLIER else 1

/-- `math.ceil(threshold * multiplier)`, the scaled threshold an endgame window uses. -/
def scaledThreshold (threshold : Nat) (multiplier : ℚ) : Int :=
  Int.ceil ((threshold : ℚ) * multiplier)

/-- `RapidBiddingDetector._check_window` on an already-filtered queryset of the
user's bids on the item: count the bids whose `bid_time` is inside the trailing
window, add one for the pending bid, and compare against the threshold
(`count + 1 >= threshold`). Returns `(exceeded, count + 1)`. -/
def check_window (bids : List Bid) (now windowSeconds : Int) (threshold : Int) :
    Bool × Nat :=
  let count := (bids.filter fun b => decide (b.bid_time ≥ now - windowSeconds)).length
  (decide ((count : Int) + 1 ≥ threshold), count + 1)

/-- `RapidBiddingDetector._check_global_velocity_soft`: the user's bid count in the
trailing global window (plus the pending bid) and distinct-auction count must BOTH
reach their thresholds. -/
def check_global_velocity_soft (s : Settings) (now : Int) (db : DB) (user : Nat) : Bool :=
  let recent := db.bids.filter fun b =>
    decide (b.bidder = user) &&
      decide (b.bid_time ≥ now - s.GLOBAL_VELOCITY_SOFT_WINDOW_MINUTES * 60)
  let bid_count := recent.length + 1
  let auction_count := (recent.map (·.item)).dedup.length
  decide (bid_count ≥ s.GLOBAL_VELOCITY_SOFT_THRESHOLD_BIDS) &&
    decide (auction_count ≥ s.GLOBAL_VELOCITY_SOFT_THRESHOLD_AUCTIONS)

/-- `RapidBiddingDetector._check_global_velocity_hard`: as the soft variant, with
the hard window and thresholds. -/
def check_global_velocity_hard (s : Settings) (now : Int) (db : DB) (user : Nat) : Bool :=
  let recent := db.bids.filter fun b =>
    decide (b.bidder = user) &&
      decide (b.bid_time ≥ now - s.GLOBAL_VELOCITY_HARD_WINDOW_MINUTES * 60)
  let bid_count := recent.length + 1
  let auction_count := (recent.map (·.item)).dedup.length
  decide (bid_count ≥ s.GLOBAL_VELOCITY_HARD_THRESHOLD_BIDS) &&
    decide (auction_count ≥ s.GLOBAL_VELOCITY_HARD_THRESHOLD_AUCTIONS)

/-- Ascending insertion by `bid_time`, the `order_by('bid_time')` of a queryset
(ties left in engine order). -/
def insertByTimeAsc (b : Bid) : List Bid → List Bid
  | [] => [b]
  | c :: cs => if b.bid_time ≤ c.bid_time then b :: c :: cs else c :: insertByTimeAsc b cs

/-- `order_by('bid_time')`. -/
def sortByTimeAsc : List Bid → List Bid
  | [] => []
  | b :: bs => insertByTimeAsc b (sortByTimeAsc bs)

/-- Count, over consecutive pairs of the time-ordered recent bids, the increments
that are at most `min_increment * 1.1` (the loop body of
`_check_minimum_increment_pattern`). -/
def countMinimalIncrements (minInc : ℚ) : List Bid → Nat
  | a :: b :: rest =>
    (if b.amount - a.amount ≤ minInc * (11 / 10) then 1 else 0) +
      countMinimalIncrements minInc (b :: rest)
  | _ => 0

/-- `RapidBiddingDetector._check_minimum_increment_pattern`: within the configured
window, count consecutive near-minimal increments among the user's bids on the item
(plus the pending bid against the last one) and compare to the threshold. The
early return fires when fewer than `threshold - 1` recent bids exist. -/
def check_minimum_increment_pattern (s : Settings) (now : Int) (db : DB)
    (user : Nat) (item : Item) (current_bid_amount : ℚ) : Bool :=
  let recent := sortByTimeAsc (db.bids.filter fun b =>
    decide (b.bidder = user) && decide (b.item = item.id) &&
      decide (b.bid_time ≥ now - s.MIN_INCREMENT_WINDOW_SECONDS))
  if (recent.length : Int) < (s.MIN_INCREMENT_THRESHOLD_BIDS : Int) - 1 then false
  else
    let pairs := countMinimalIncrements item.min_increment recent
    let withPending :=
      match recent.getLast? with
      | some last =>
        if current_bid_amount ≠ 0 ∧
            current_bid_amount - last.amount ≤ item.min_increment * (11 / 10) then
          pairs + 1
        else pairs
      | none => pairs
    decide (withPending ≥ s.MIN_INCREMENT_THRESHOLD_BIDS)

/-- `RapidBiddingDetector._create_hard_cooldown`: append a hard cooldown expiring
`duration_seconds` from now. -/
def create_hard_cooldown (now : Int) (db : DB) (user : Nat) (item : Option Nat)
    (duration_seconds : Int) (reason : String) : DB :=
  { db with cooldowns := db.cooldowns ++
      [{ user := user, item := item, cooldown_type := CooldownType.hard_cooldown,
         reason := reason, expires_at := now + duration_seconds, created_at := now,
         is_active := true, captcha_required := false, captcha_passed := false,
         failed_attempts := 0 }] }

/-- `RapidBiddingDetector._create_soft_challenge`: if the user already has at least
2 `soft_challenge` rows for the same scope created in the last hour, escalate to a
hard cooldown of `2 * RAPID_BID_COOLDOWN_DURATION` and return `true`; otherwise
create a fresh 10-minute CAPTCHA-gated soft challenge unless an active one already
exists, and return `false`. -/
def create_soft_challenge (s : Settings) (now : Int) (db : DB) (user : Nat)
    (item : Option Nat) (reason : String) : Bool × DB :=
  let recent_soft_challenges := (db.cooldowns.filter fun c =>
    decide (c.user = user) && decide (c.item = item) &&
      decide (c.cooldown_type = CooldownType.soft_challenge) &&
      decide (c.created_at ≥ now - 3600)).length
  if recent_soft_challenges ≥ 2 then
    (true, create_hard_cooldown now db user item (2 * s.RAPID_BID_COOLDOWN_DURATION)
      ("Repeated soft challenge violations"))
  else
    let existing := db.cooldowns.any fun c =>
      decide (c.user = user) && decide (c.item = item) &&
        decide (c.cooldown_type = CooldownType.soft_challenge) && c.is_active
    let db :=
      if existing then db
      else
        { db with cooldowns := db.cooldowns ++
            [{ user := user, item := item, cooldown_type := CooldownType.soft_challenge,
               reason := reason, expires_at := now + 600, created_at := now,
               is_active := true, captcha_required := true, captcha_passed := false,
               failed_attempts := 0 }] }
    (false, db)

/-- Steps 2-7 of `check_rapid_bidding` (everything after the existing-cooldown
check): the two per-item soft windows, the two per-item hard windows, global
cross-auction velocity (soft then hard), and the minimal-increment pattern. -/
def rapidWindowChecks (s : Settings) (now : Int) (db : DB) (user : Nat)
    (item : Item) (bid_amount : ℚ) : GateRes × DB :=
  let multiplier := endgameMultiplier s now item
  let user_bids := db.bids.filter fun b =>
    decide (b.bidder = user) && decide (b.item = item.id)
  let soft2 := check_window user_bids now (s.RAPID_BID_SOFT_WINDOW_2MIN * 60)
    (scaledThreshold s.RAPID_BID_SOFT_THRESHOLD_2MIN multiplier)
  let soft5 := check_window user_bids now (s.RAPID_BID_SOFT_WINDOW_5MIN * 60)
    (scaledThreshold s.RAPID_BID_SOFT_THRESHOLD_5MIN multiplier)
  if soft2.1 || soft5.1 then
    let window_desc :=
      if soft2.1 then toString soft2.2 ++ " bids in 2 minutes"
      else toString soft5.2 ++ " bids in 5 minutes"
    let esc := create_soft_challenge s now db user (some item.id)
      ("Rapid bidding: " ++ window_desc)
    if esc.1 then
      ({ is_allowed := false, action := "hard_cooldown",
         message := "Too many verification attempts. You have been temporarily blocked from bidding.",
         cooldown_duration := some (s.RAPID_BID_COOLDOWN_DURATION * 2) }, esc.2)
    else
      ({ is_allowed := false, action := "soft_challenge",
         message := "Unusual activity detected (" ++ window_desc ++
           "). Please complete the security challenge to continue bidding.",
         cooldown_duration := none }, esc.2)
  else
  let hard5 := check_window user_bids now (s.RAPID_BID_HARD_WINDOW_5MIN * 60)
    (scaledThreshold s.RAPID_BID_HARD_THRESHOLD_5MIN multiplier)
  let hard20 := check_window user_bids now s.RAPID_BID_HARD_WINDOW_20SEC
    (scaledThreshold s.RAPID_BID_HARD_THRESHOLD_20SEC multiplier)
  if hard5.1 || hard20.1 then
    let window_desc :=
      if hard5.1 then toString hard5.2 ++ " bids in 5 minutes"
      else toString hard20.2 ++ " bids in 20 seconds"
    let db := create_hard_cooldown now db user (some item.id)
      s.RAPID_BID_COOLDOWN_DURATION ("Excessive bidding: " ++ window_desc)
    ({ is_allowed := false, action := "hard_cooldown",
       message := "Too many bids too quickly (" ++ window_desc ++ "). Please wait " ++
         toString (Int.ediv s.RAPID_BID_COOLDOWN_DURATION 60) ++ " minutes before bidding again.",
       cooldown_duration := some s.RAPID_BID_COOLDOWN_DURATION }, db)
  else if check_global_velocity_soft s now db user then
    let esc := create_soft_challenge s now db user none
      ("High velocity across multiple auctions")
    ({ is_allowed := false, action := "soft_challenge",
       message := "Unusual bidding activity detected. Please complete the security challenge.",
       cooldown_duration := none }, esc.2)
  else if check_global_velocity_hard s now db user then
    let db := create_hard_cooldown now db user none (s.RAPID_BID_COOLDOWN_DURATION * 2)
      ("Excessive bidding across multiple auctions")
    ({ is_allowed := false, action := "hard_cooldown",
       message := "Suspicious cross-auction bidding. Cooling down for " ++
         toString (Int.ediv (s.RAPID_BID_COOLDOWN_DURATION * 2) 60) ++ " minutes.",
       cooldown_duration := some (s.RAPID_BID_COOLDOWN_DURATION * 2) }, db)
  else if check_minimum_increment_pattern s now db user item bid_amount then
    let esc := create_soft_challenge s now db user (some item.id)
      ("Suspicious minimal increment pattern")
    ({ is_allowed := false, action := "soft_challenge",
       message := "Unusual bid pattern detected. Please complete the verification.",
       cooldown_duration := none }, esc.2)
  else
    ({ is_allowed := true, action := "allow", message := "Bid allowed",
       cooldown_duration := none }, db)

/-- `RapidBiddingDetector.check_rapid_bidding`: step 1 consults the cooldown store;
an active unpassed soft challenge or an active hard cooldown / suspension blocks
immediately; any other (or no) active cooldown falls through to the window checks. -/
def check_rapid_bidding (s : Settings) (now : Int) (db : DB) (user : Nat)
    (item : Item) (bid_amount : ℚ) : GateRes × DB :=
  let ga := get_active_cooldown now db user (some item.id)
  match ga.1 with
  | some cd =>
    if cd.cooldown_type = CooldownType.soft_challenge ∧ cd.captcha_passed = false then
      ({ is_allowed := false, action := "soft_challenge",
         message := "Please complete the security challenge to continue bidding.",
         cooldown_duration := none }, ga.2)
    else if cd.cooldown_type = CooldownType.hard_cooldown ∨
        cd.cooldown_type = CooldownType.suspended then
      let time_remaining := cd.expires_at - now
      ({ is_allowed := false, action := ctypeStr cd.cooldown_type,
         message := "You are bidding too quickly. Please wait " ++
           toString (Int.ediv time_remaining 60) ++ "m " ++
           toString (Int.emod time_remaining 60) ++ "s before bidding again.",
         cooldown_duration := some time_remaining }, ga.2)
    else rapidWindowChecks s now ga.2 user item bid_amount
  | none => rapidWindowChecks s now ga.2 user item bid_amount


/-! ## FraudRuleEngine (`auctions/fraud_detection.py`, `FraudDetectionService`) -/

/-- Item lookup by primary key (a foreign-key dereference). -/
def itemById (db : DB) (i : Nat) : Option Item :=
  db.items.find? fun it => decide (it.id = i)

/-- Construct a `FraudAlert` row as the detectors do (`is_resolved` defaults to
`false`; `description`/`data` are presentation-only). -/
def mkAlert (user : Nat) (item : Option Nat) (alert_type : String)
    (severity : Severity) : FraudAlert :=
  { user := user, item := item, alert_type := alert_type, severity := severity,
    is_resolved := false }

/-- `detect_rapid_bidding`: the user's bid count (the tentatively saved candidate
included) in the trailing window reaches `RAPID_BIDDING_THRESHOLD`. -/
def detect_rapid_bidding (s : Settings) (now : Int) (db : DB) (bid : Bid) :
    List FraudAlert :=
  let recent_bids := (db.bids.filter fun b =>
    decide (b.bidder = bid.bidder) &&
      decide (b.bid_time ≥ now - s.RAPID_BIDDING_WINDOW_MINUTES * 60)).length
  if recent_bids ≥ s.RAPID_BIDDING_THRESHOLD then
    [mkAlert bid.bidder (some bid.item) ("rapid_bidding") Severity.high]
  else []

/-- `detect_bid_sniping`: when the candidate bid lands within the final sniping
window, count the user's historical bids that were themselves placed within that
window of their item's end, and alert at the threshold. -/
def detect_bid_sniping (s : Settings) (now : Int) (db : DB) (bid : Bid)
    (item : Item) : List FraudAlert :=
  let time_until_end := item.end_time - now
  if time_until_end ≤ s.BID_SNIPING_WINDOW_SECONDS then
    let recent_snipes := (db.bids.filter fun b =>
      decide (b.bidder = bid.bidder) &&
        decide (b.bid_time ≥ now - s.BID_SNIPING_HISTORY_DAYS * 86400) &&
        (match itemById db b.item with
         | some it => decide (it.end_time - b.bid_time ≤ s.BID_SNIPING_WINDOW_SECONDS)
         | none => false)).length
    if recent_snipes ≥ s.BID_SNIPING_THRESHOLD then
      [mkAlert bid.bidder (some bid.item) ("bid_sniping_pattern") Severity.medium]
    else []
  else []

/-- `detect_unusual_bid_amount`: the candidate amount is at least
`UNUSUAL_BID_MULTIPLIER` times the item's average bid (`Avg` is `None` on an empty
set and the Python truthiness guard also drops a zero average). -/
def detect_unusual_bid_amount (s : Settings) (db : DB) (bid : Bid) :
    List FraudAlert :=
  let amounts := (db.bids.filter fun b => decide (b.item = bid.item)).map (·.amount)
  if amounts.length = 0 then []
  else
    let avg_bid := amounts.sum / (amounts.length : ℚ)
    if avg_bid ≠ 0 ∧ bid.amount ≥ avg_bid * s.UNUSUAL_BID_MULTIPLIER then
      [mkAlert bid.bidder (some bid.item) ("unusual_bid_amount") Severity.medium]
    else []

/-- `detect_new_account_high_value`: account younger than
`MIN_ACCOUNT_AGE_FOR_HIGH_BIDS` days placing a bid at or above
`HIGH_VALUE_BID_THRESHOLD` (`timedelta.days` is floor division). -/
def detect_new_account_high_value (s : Settings) (now : Int) (bid : Bid)
    (bidder : UserRec) : List FraudAlert :=
  if Int.ediv (now - bidder.date_joined) 86400 < s.MIN_ACCOUNT_AGE_FOR_HIGH_BIDS ∧
      bid.amount ≥ s.HIGH_VALUE_BID_THRESHOLD then
    [mkAlert bid.bidder (some bid.item) ("new_account_high_value") Severity.high]
  else []

/-- `detect_self_bidding`: the bidder is the seller of the item — always a
critical alert. -/
def detect_self_bidding (bid : Bid) (item : Item) : List FraudAlert :=
  if item.seller = bid.bidder then
    [mkAlert bid.bidder (some bid.item) ("self_bidding") Severity.critical]
  else []

/-- `detect_bid_pattern_anomaly` evaluates
`Bid.objects.filter(bidder=...).order_by('-created_at')[:20]`, but `Bid` has no
`created_at` column: executing that queryset raises `FieldError`. The embedding
errors exactly on the branch every Django version is guaranteed to evaluate the
queryset on — when the history count reaches `BID_PATTERN_MIN_HISTORY` and the
list comprehension would iterate the ordered slice (newer Django versions raise
already at the sliced `.count()`, i.e. at least as often). -/
def detect_bid_pattern_anomaly (s : Settings) (db : DB) (bid : Bid) :
    Except String (List FraudAlert) :=
  let history_count :=
    min (db.bids.filter fun b => decide (b.bidder = bid.bidder)).length 20
  if history_count ≥ s.BID_PATTERN_MIN_HISTORY then
    Except.error
      ("FieldError: cannot resolve keyword created_at into a field of Bid")
  else Except.ok []

/-- `detect_shill_bidding_patterns`: given minimum sample sizes, the fraction of
the user's bids placed on this seller's items reaches `SHILL_AFFINITY_THRESHOLD`
— critical. -/
def detect_shill_bidding_patterns (s : Settings) (db : DB) (bid : Bid)
    (item : Item) : List FraudAlert :=
  let total_user_bids := (db.bids.filter fun b => decide (b.bidder = bid.bidder)).length
  let seller_item_bids := (db.bids.filter fun b =>
    decide (b.bidder = bid.bidder) &&
      (match itemById db b.item with
       | some it => decide (it.seller = item.seller)
       | none => false)).length
  if total_user_bids ≥ s.SHILL_MIN_TOTAL_BIDS ∧
      seller_item_bids ≥ s.SHILL_MIN_SELLER_BIDS then
    if (seller_item_bids : ℚ) / (total_user_bids : ℚ) ≥ s.SHILL_AFFINITY_THRESHOLD then
      [mkAlert bid.bidder (some bid.item) ("shill_bidding_seller_affinity")
        Severity.critical]
    else []
  else []

/-- `detect_low_win_ratio` in the source: with enough bids, a win fraction at or
below `LOW_WIN_RATIO_THRESHOLD` (wins are items won with status sold). -/
def detect_low_win_frac (s : Settings) (db : DB) (bid : Bid) : List FraudAlert :=
  let user_bids := (db.bids.filter fun b => decide (b.bidder = bid.bidder)).length
  let user_wins := (db.items.filter fun i =>
    decide (i.winner = some bid.bidder) && decide (i.status = Status.sold)).length
  if user_bids ≥ s.LOW_WIN_RATIO_MIN_BIDS then
    let win_frac : ℚ := if user_bids > 0 then (user_wins : ℚ) / (user_bids : ℚ) else 0
    if win_frac ≤ s.LOW_WIN_RATIO_THRESHOLD then
      [mkAlert bid.bidder (some bid.item) ("shill_low_win_ratio") Severity.high]
    else []
  else []

/-- `detect_seller_affinity`: the user has bid in a large enough fraction of this
seller's auctions. -/
def detect_seller_affinity (s : Settings) (db : DB) (bid : Bid) (item : Item) :
    List FraudAlert :=
  let user_seller_auctions := (db.items.filter fun i =>
    decide (i.seller = item.seller) &&
      db.bids.any fun b => decide (b.item = i.id) && decide (b.bidder = bid.bidder)).length
  if user_seller_auctions ≥ s.SELLER_AFFINITY_MIN_AUCTIONS then
    let total_seller_auctions :=
      (db.items.filter fun i => decide (i.seller = item.seller)).length
    let participation_rate : ℚ :=
      if total_seller_auctions > 0 then
        (user_seller_auctions : ℚ) / (total_seller_auctions : ℚ)
      else 0
    if participation_rate ≥ s.SELLER_AFFINITY_PARTICIPATION_THRESHOLD then
      [mkAlert bid.bidder (some bid.item) ("seller_auction_participation")
        Severity.high]
    else []
  else []

/-- Descending insertion by `bid_time` (the Meta ordering `['-bid_time']` of `Bid`,
used by the unsliced querysets the timing detector slices with `[:50]`). -/
def insertByTimeDesc (b : Bid) : List Bid → List Bid
  | [] => [b]
  | c :: cs => if b.bid_time ≥ c.bid_time then b :: c :: cs else c :: insertByTimeDesc b cs

/-- `order_by('-bid_time')` (the model Meta default ordering). -/
def sortByTimeDesc : List Bid → List Bid
  | [] => []
  | b :: bs => insertByTimeDesc b (sortByTimeDesc bs)

/-- Auction progress of a bid on its item: elapsed over total duration, zero when
the duration is not positive. -/
def bidProgress (it : Item) (bid_time : Int) : ℚ :=
  let total_duration := it.end_time - it.created_at
  let time_elapsed := bid_time - it.created_at
  if total_duration > 0 then (time_elapsed : ℚ) / (total_duration : ℚ) else 0

/-- `detect_bid_timing_pattern`: over the user's 50 most recent bids, count early
(progress ≤ early threshold) and late (progress ≥ late threshold) bids; if the
candidate is early, there are enough early bids and the late-to-early fraction is
at most the configured bound, alert. -/
def detect_bid_timing_pattern (s : Settings) (db : DB) (bid : Bid) (item : Item) :
    List FraudAlert :=
  let auction_progress := bidProgress item bid.bid_time
  let hist := (sortByTimeDesc (db.bids.filter fun b =>
    decide (b.bidder = bid.bidder))).take 50
  let counts := hist.foldl (fun (acc : Nat × Nat) b =>
    match itemById db b.item with
    | none => acc
    | some it =>
      let p := bidProgress it b.bid_time
      if p ≤ s.TIMING_PATTERN_EARLY_THRESHOLD then (acc.1 + 1, acc.2)
      else if p ≥ s.TIMING_PATTERN_LATE_THRESHOLD then (acc.1, acc.2 + 1)
      else acc) (0, 0)
  let user_early_bids := counts.1
  let user_late_bids := counts.2
  if auction_progress ≤ s.TIMING_PATTERN_EARLY_THRESHOLD ∧
      user_early_bids ≥ s.TIMING_PATTERN_MIN_EARLY_BIDS then
    let late_frac : ℚ :=
      if user_early_bids > 0 then (user_late_bids : ℚ) / (user_early_bids : ℚ) else 0
    if late_frac ≤ s.TIMING_PATTERN_LATE_RATIO_THRESHOLD then
      [mkAlert bid.bidder (some bid.item) ("shill_timing_pattern") Severity.medium]
    else []
  else []

/-- `detect_collusive_bidding`: count the other bidders on this item who share at
least `COLLUSIVE_COMMON_ITEMS_THRESHOLD` auctions with the candidate bidder;
alert when the pair count reaches `COLLUSIVE_SUSPICIOUS_PAIRS_THRESHOLD`. -/
def detect_collusive_bidding (s : Settings) (db : DB) (bid : Bid) :
    List FraudAlert :=
  let same_item_bidders :=
    ((db.bids.filter fun b => decide (b.item = bid.item)).map (·.bidder)).dedup
  let my_items := (db.bids.filter fun b => decide (b.bidder = bid.bidder)).map (·.item)
  let suspicious_pairs := (same_item_bidders.filter fun u =>
    decide (u ≠ bid.bidder) &&
      decide (((db.bids.filter fun b =>
          decide (b.bidder = u) && decide (b.item ∈ my_items)).map (·.item)).dedup.length
        ≥ s.COLLUSIVE_COMMON_ITEMS_THRESHOLD)).length
  if suspicious_pairs ≥ s.COLLUSIVE_SUSPICIOUS_PAIRS_THRESHOLD then
    [mkAlert bid.bidder (some bid.item) ("collusive_bidding") Severity.critical]
  else []

/-- `get_ai_fraud_assessment` performs an external OpenAI network call; its
failure path (and the no-API-key deployment) returns `None`, which is the
behaviour modelled — the call can never affect the blocking decision. -/
def get_ai_fraud_assessment : Option FraudAlert := none

/-- `FraudDetectionService.analyze_bid`: run the detector battery in source
order, optionally append the AI assessment, then save every alert. The sixth
detector (`detect_bid_pattern_anomaly`) raises `FieldError`, which aborts the
analysis before the save loop whenever it fires. -/
def analyze_bid (s : Settings) (now : Int) (db : DB) (bid : Bid)
    (bidder : UserRec) (item : Item) : Except String (List FraudAlert × DB) := do
  let a1 := detect_rapid_bidding s now db bid
  let a2 := detect_bid_sniping s now db bid item
  let a3 := detect_unusual_bid_amount s db bid
  let a4 := detect_new_account_high_value s now bid bidder
  let a5 := detect_self_bidding bid item
  let a6 ← detect_bid_pattern_anomaly s db bid
  let a7 := detect_shill_bidding_patterns s db bid item
  let a8 := detect_low_win_frac s db bid
  let a9 := detect_seller_affinity s db bid item
  let a10 := detect_bid_timing_pattern s db bid item
  let a11 := detect_collusive_bidding s db bid
  let alerts := a1 ++ a2 ++ a3 ++ a4 ++ a5 ++ a6 ++ a7 ++ a8 ++ a9 ++ a10 ++ a11
  let alerts :=
    if s.OPENAI_API_KEY_set ∧ alerts ≠ [] then
      alerts ++ get_ai_fraud_assessment.toList
    else alerts
  let db := { db with alerts := db.alerts ++ alerts }
  return (alerts, db)


/-! ## View-layer orchestration (`auctions/views.py`) -/

/-- `PlaceBidForm.clean_amount` (`auctions/forms.py`): reject an amount not above
the current price, then an amount below `current_price + min_increment`
(interpolated figures elided from the messages). -/
def clean_amount (item : Item) (amount : ℚ) : Except String ℚ :=
  if amount ≤ item.current_price then
    Except.error
      ("Your bid must be higher than the current price")
  else if amount < item.current_price + item.min_increment then
    Except.error
      ("Your bid must be at least the current price plus the minimum increment")
  else Except.ok amount

/-- Kind of a user-facing Django message. -/
inductive MsgKind where
  | error
  | warning
  | success
deriving DecidableEq, Repr

/-- Outcome of a `place_bid` request: whether the bid was committed, whether a
CAPTCHA challenge was stashed in the session, and the emitted messages. -/
structure PBResult where
  success : Bool
  challenged : Bool
  messages : List (MsgKind × String)
deriving DecidableEq, Repr

/-- A fresh primary key for a new `Bid` row (strictly above every existing id). -/
def freshBidId (bids : List Bid) : Nat :=
  (bids.map Bid.id).foldr max 0 + 1

/-- `item.bids.order_by('-amount').first()`: a bid of maximal amount (ties
resolved to the earliest row, which the SQL engine leaves unspecified). -/
def maxByAmount : List Bid → Option Bid
  | [] => none
  | b :: bs =>
    match maxByAmount bs with
    | none => some b
    | some m => if m.amount > b.amount then some m else some b

/-- The bulk update `Bid.objects.filter(item=item).update(is_winning=False)`
applied to one row. -/
def clearWinning (itemId : Nat) (b : Bid) : Bid :=
  if b.item = itemId then { b with is_winning := false } else b

/-- `highest_bid.is_winning = True; highest_bid.save(update_fields=['is_winning'])`
applied to one row: set the flag on the row with the winner's primary key. -/
def setWinning (wid : Nat) (b : Bid) : Bid :=
  if b.id = wid then { b with is_winning := true } else b

/-- Step 6 of `place_bid` (`views.py` lines 284-294): clear `is_winning` on all of
the item's bids, re-select the highest bid by amount, mark it winning, set the
item's `current_price` to its amount and increment `bid_count` (both written from
the fetched item object via `update_fields`). -/
def commit_winning (db : DB) (item : Item) : DB :=
  let bids := db.bids.map (clearWinning item.id)
  match maxByAmount (bids.filter fun b => decide (b.item = item.id)) with
  | some hb =>
    { db with
      bids := bids.map (setWinning hb.id),
      items := db.items.map fun i =>
        if i.id = item.id then
          { i with current_price := hb.amount, bid_count := item.bid_count + 1 }
        else i }
  | none =>
    { db with
      bids := bids,
      items := db.items.map fun i =>
        if i.id = item.id then { i with bid_count := item.bid_count + 1 } else i }

/-- Intermediate state of the admission pipeline between checks. -/
structure StepState where
  reject : Bool
  challenged : Bool
  msgs : List (MsgKind × String)
  db : DB

/-- Step 2 of `place_bid`: the rapid-bidding gate, skipped when the user has a
rapid-bidding bypass (superusers bypass everything); a soft challenge stashes the
pending bid and warns, any other block is an error. -/
def gateStep (s : Settings) (now : Int) (db : DB) (bidder : UserRec) (item : Item)
    (amount : ℚ) : StepState :=
  let bypass_all := bidder.is_superuser || bidder.bypass_all_restrictions
  let bypass_rapid_bidding :=
    bidder.is_superuser || bidder.bypass_rapid_bidding_check || bypass_all
  if bypass_rapid_bidding then ⟨false, false, [], db⟩
  else
    let g := check_rapid_bidding s now db bidder.id item amount
    if g.1.is_allowed then ⟨false, false, [], g.2⟩
    else if g.1.action = "soft_challenge" then
      ⟨true, true, [(MsgKind.warning, g.1.message)], g.2⟩
    else ⟨true, false, [(MsgKind.error, g.1.message)], g.2⟩

/-- Step 2b of `place_bid`: the account-age check for high-value bids, skipped on
bypass; a failure adds an error and marks the attempt for rejection. -/
def ageStep (s : Settings) (now : Int) (bidder : UserRec) (amount : ℚ)
    (st : StepState) : StepState :=
  let bypass_all := bidder.is_superuser || bidder.bypass_all_restrictions
  let bypass_account_age :=
    bidder.is_superuser || bidder.bypass_account_age_check || bypass_all
  if ¬ bypass_account_age ∧ amount > s.HIGH_VALUE_BID_THRESHOLD ∧
      Int.ediv (now - bidder.date_joined) 86400 < s.MIN_ACCOUNT_AGE_FOR_HIGH_BIDS then
    ⟨true, st.challenged,
      st.msgs ++
        [(MsgKind.error,
          "New accounts must be at least the configured number of days old to place bids above the high-value threshold.")],
      st.db⟩
  else st

/-- Steps 4-5a of `place_bid`: fraud analysis over the tentatively saved bid
(`st.db` already contains it). Exceptions are swallowed (log only); a critical
alert blocks unless the user has a fraud bypass; non-critical alerts only warn.
The detailed fraud message built from `fraud_types` is elided to its static
sentences. -/
def fraudStep (s : Settings) (now : Int) (bidder : UserRec) (item : Item)
    (bid : Bid) (st : StepState) : StepState :=
  let bypass_all := bidder.is_superuser || bidder.bypass_all_restrictions
  let bypass_fraud := bidder.is_superuser || bidder.bypass_fraud_detection || bypass_all
  match analyze_bid s now st.db bid bidder item with
  | Except.error _ => st
  | Except.ok (alerts, db3) =>
    if alerts.isEmpty then ⟨st.reject, st.challenged, st.msgs, db3⟩
    else
      let critical_alerts := alerts.filter fun a => decide (a.severity = Severity.critical)
      if ¬ bypass_fraud then
        if ¬ critical_alerts.isEmpty then
          ⟨true, st.challenged,
            st.msgs ++
              [(MsgKind.error,
                "FRAUD ALERT detected. Your bid has been blocked. Contact support if you believe this is an error.")],
            db3⟩
        else
          ⟨st.reject, st.challenged,
            st.msgs ++
              [(MsgKind.warning,
                "FRAUD ALERT detected. Your bid is under review. Our security team will verify this activity.")],
            db3⟩
      else
        ⟨st.reject, st.challenged,
          st.msgs ++
            [(MsgKind.warning,
              "FRAUD ALERT detected. Logged for review (you have fraud detection bypass).")],
          db3⟩

/-- Steps 1-6 of `place_bid` after structural validation: rapid-bidding gate
(skipped on bypass), account-age check (skipped on bypass), tentative save, fraud
analysis, then delete-and-reject or commit. -/
def place_bid_admission (s : Settings) (now : Int) (db : DB) (bidder : UserRec)
    (item : Item) (amount : ℚ) : PBResult × DB :=
  let afterGate := gateStep s now db bidder item amount
  let afterAge := ageStep s now bidder amount afterGate
  let newId := freshBidId afterAge.db.bids
  let bid : Bid :=
    { id := newId, item := item.id, bidder := bidder.id, amount := amount,
      bid_time := now, is_winning := false }
  let afterSave : StepState :=
    ⟨afterAge.reject, afterAge.challenged, afterAge.msgs,
      { afterAge.db with bids := afterAge.db.bids ++ [bid] }⟩
  let afterFraud := fraudStep s now bidder item bid afterSave
  if afterFraud.reject then
    ({ success := false, challenged := afterFraud.challenged, messages := afterFraud.msgs },
      { afterFraud.db with
        bids := afterFraud.db.bids.filter fun b => decide (b.id ≠ newId) })
  else
    ({ success := true, challenged := afterFraud.challenged,
       messages := (MsgKind.success, "Your bid has been placed successfully!") ::
         afterFraud.msgs.filter fun m => decide (m.1 = MsgKind.warning) },
      commit_winning afterFraud.db item)

/-- `place_bid` (`auctions/views.py`): structural validation in source order —
item exists, bidder is not the seller, auction active, not ended, form amount
valid — then the admission pipeline. -/
def place_bid (s : Settings) (now : Int) (db : DB) (bidder : UserRec)
    (itemId : Nat) (amount : ℚ) : PBResult × DB :=
  match db.items.find? fun i => decide (i.id = itemId) with
  | none =>
    ({ success := false, challenged := false,
       messages := [(MsgKind.error, "Item not found")] }, db)
  | some item =>
    if item.seller = bidder.id then
      ({ success := false, challenged := false,
         messages := [(MsgKind.error, "You cannot bid on your own item!")] }, db)
    else if item.status ≠ Status.active then
      ({ success := false, challenged := false,
         messages := [(MsgKind.error, "This auction is no longer active.")] }, db)
    else if item.end_time ≤ now then
      ({ success := false, challenged := false,
         messages := [(MsgKind.error, "This auction has ended.")] }, db)
    else
      match clean_amount item amount with
      | Except.error e =>
        ({ success := false, challenged := false,
           messages := [(MsgKind.error, e)] }, db)
      | Except.ok amount => place_bid_admission s now db bidder item amount

/-- Outcome of a `buy_now` request. -/
structure BNResult where
  success : Bool
  message : String
deriving DecidableEq, Repr

/-- The pre-transaction checks of `buy_now` (`views.py` lines 483-511), in source
order; returns the error message of the first failing check. A zero
`buy_now_price` is falsy in Python and treated like an absent one. -/
def buy_now_checks (now : Int) (db : DB) (buyer : UserRec) (item : Item) :
    Option String :=
  if item.status ≠ Status.active then some ("This auction is no longer active.")
  else if item.end_time ≤ now then some ("This auction has ended.")
  else if item.buy_now_price.getD 0 = 0 then
    some ("This item does not have a Buy Now price.")
  else if item.seller = buyer.id then some ("You cannot buy your own item!")
  else if db.bids.any fun b => decide (b.item = item.id) then
    some ("Buy Now is no longer available. Bidding has started.")
  else
    match db.wallets.find? fun w => decide (w.user = buyer.id) with
    | none => some ("You need to have a wallet to use Buy Now. Please contact support.")
    | some w =>
      if w.balance < item.buy_now_price.getD 0 then
        some ("Insufficient wallet balance. Please deposit funds.")
      else none

/-- The row predicate of the atomic conditional update
`Item.objects.filter(pk=pk, status='active', winner__isnull=True)`. -/
def buyNowCond (pk : Nat) (i : Item) : Bool :=
  decide (i.id = pk) && decide (i.status = Status.active) && decide (i.winner = none)

/-- The `transaction.atomic()` block of `buy_now`: the conditional update flips
matching rows to `sold` with the winner set; zero affected rows aborts with the
race message and no state change; otherwise the buyer wallet is debited the price
and the seller wallet (created if absent) credited the price net of the 5%
platform tax. Ledger rows (`WalletTransaction`, `TransactionLog`) are
presentation-only and not modelled. `price` and `sellerId` come from the item
object fetched before the transaction. -/
def buy_now_txn (db : DB) (buyerId sellerId pk : Nat) (price : ℚ) :
    BNResult × DB :=
  let updated_count := (db.items.filter (buyNowCond pk)).length
  if updated_count = 0 then
    ({ success := false, message := "Someone else just purchased this item!" }, db)
  else
    let items := db.items.map fun i =>
      if buyNowCond pk i then { i with status := Status.sold, winner := some buyerId }
      else i
    let platform_tax := price * (5 / 100)
    let seller_receives := price - platform_tax
    let wallets := db.wallets.map fun w =>
      if w.user = buyerId then { w with balance := w.balance - price } else w
    let wallets :=
      if wallets.any fun w => decide (w.user = sellerId) then
        wallets.map fun w =>
          if w.user = sellerId then { w with balance := w.balance + seller_receives }
          else w
      else wallets ++ [{ user := sellerId, balance := 0 + seller_receives }]
    ({ success := true,
       message := "Congratulations! You successfully purchased this item using Buy Now!" },
      { db with items := items, wallets := wallets })

/-- `buy_now` (`auctions/views.py`): fetch the item, run the pre-transaction
checks, then attempt the atomic conditional purchase. -/
def buy_now (now : Int) (db : DB) (buyer : UserRec) (pk : Nat) : BNResult × DB :=
  match db.items.find? fun i => decide (i.id = pk) with
  | none => ({ success := false, message := "Item not found" }, db)
  | some item =>
    match buy_now_checks now db buyer item with
    | some msg => ({ success := false, message := msg }, db)
    | none => buy_now_txn db buyer.id item.seller pk (item.buy_now_price.getD 0)


/-! ## Concrete scenario data used by witnesses and counterexamples -/

/-- A configuration whose velocity and fraud thresholds are out of reach, so that
individual checks can be exercised in isolation. -/
def settingsQuiet : Settings :=
  { RAPID_BID_SOFT_WINDOW_2MIN := 2, RAPID_BID_SOFT_THRESHOLD_2MIN := 1000,
    RAPID_BID_SOFT_WINDOW_5MIN := 5, RAPID_BID_SOFT_THRESHOLD_5MIN := 1000,
    RAPID_BID_HARD_WINDOW_5MIN := 5, RAPID_BID_HARD_THRESHOLD_5MIN := 1000,
    RAPID_BID_HARD_WINDOW_20SEC := 20, RAPID_BID_HARD_THRESHOLD_20SEC := 1000,
    RAPID_BID_COOLDOWN_DURATION := 300, AUCTION_ENDGAME_WINDOW_MINUTES := 5,
    AUCTION_ENDGAME_MULTIPLIER := 2, GLOBAL_VELOCITY_SOFT_WINDOW_MINUTES := 10,
    GLOBAL_VELOCITY_SOFT_THRESHOLD_BIDS := 1000,
    GLOBAL_VELOCITY_SOFT_THRESHOLD_AUCTIONS := 1000,
    GLOBAL_VELOCITY_HARD_WINDOW_MINUTES := 10,
    GLOBAL_VELOCITY_HARD_THRESHOLD_BIDS := 1000,
    GLOBAL_VELOCITY_HARD_THRESHOLD_AUCTIONS := 1000,
    MIN_INCREMENT_WINDOW_SECONDS := 120, MIN_INCREMENT_THRESHOLD_BIDS := 1000,
    HIGH_VALUE_BID_THRESHOLD := 1000000, MIN_ACCOUNT_AGE_FOR_HIGH_BIDS := 7,
    RAPID_BIDDING_WINDOW_MINUTES := 5, RAPID_BIDDING_THRESHOLD := 1000,
    BID_SNIPING_WINDOW_SECONDS := 60, BID_SNIPING_HISTORY_DAYS := 7,
    BID_SNIPING_THRESHOLD := 1000, UNUSUAL_BID_MULTIPLIER := 3,
    BID_PATTERN_MIN_HISTORY := 1000, BID_PATTERN_DEVIATION_MULTIPLIER := 3,
    SHILL_MIN_TOTAL_BIDS := 1000, SHILL_MIN_SELLER_BIDS := 1000,
    SHILL_AFFINITY_THRESHOLD := 4/5, LOW_WIN_RATIO_MIN_BIDS := 1000,
    LOW_WIN_RATIO_THRESHOLD := 1/10, SELLER_AFFINITY_MIN_AUCTIONS := 1000,
    SELLER_AFFINITY_PARTICIPATION_THRESHOLD := 4/5,
    TIMING_PATTERN_EARLY_THRESHOLD := 3/10, TIMING_PATTERN_LATE_THRESHOLD := 4/5,
    TIMING_PATTERN_MIN_EARLY_BIDS := 1000,
    TIMING_PATTERN_LATE_RATIO_THRESHOLD := 1/5,
    COLLUSIVE_COMMON_ITEMS_THRESHOLD := 1000,
    COLLUSIVE_SUSPICIOUS_PAIRS_THRESHOLD := 1000, OPENAI_API_KEY_set := false }

/-- An active auction at UGX 500,000 with a 10,000 minimum increment, sold by
user 5, ending at time 100000. -/
def itemA : Item :=
  { id := 1, seller := 5, current_price := 500000, min_increment := 10000,
    buy_now_price := none, status := Status.active, created_at := 0,
    end_time := 100000, bid_count := 0, winner := none }

/-- A plain bidder (user 7) with no bypass permissions. -/
def bidder7 : UserRec :=
  { id := 7, date_joined := 0, is_superuser := false,
    bypass_all_restrictions := false, bypass_rapid_bidding_check := false,
    bypass_account_age_check := false, bypass_fraud_detection := false }

/-! ## Claim C2 -/

/-- `clean_amount` errors on any amount strictly below
`current_price + min_increment` (one of its two rejection branches fires). -/
theorem clean_amount_error_of_lt (item : Item) (amount : ℚ)
    (h : amount < item.current_price + item.min_increment) :
    ∃ e, clean_amount item amount = Except.error e := by
  unfold clean_amount
  by_cases h1 : amount ≤ item.current_price
  · exact ⟨_, if_pos h1⟩
  · rw [if_neg h1, if_pos h]
    exact ⟨_, rfl⟩

/-- C2, counterexample to the claim as stated: an offered amount of exactly
`current_price + min_increment` (510,000 = 500,000 + 10,000) is `≤`
`current_price + min_increment`, yet `PlaceBidForm.clean_amount` accepts it
(the form only rejects amounts strictly below the sum) and the full `place_bid`
pipeline commits the bid. -/
theorem c2_counterexample :
    (510000 : ℚ) ≤ itemA.current_price + itemA.min_increment ∧
    clean_amount itemA 510000 = Except.ok 510000 ∧
    (place_bid settingsQuiet 1000
      { items := [itemA], bids := [], cooldowns := [], alerts := [], wallets := [] }
      bidder7 1 510000).1.success = true := by
  refine ⟨by norm_num [itemA], by norm_num [clean_amount, itemA], ?_⟩
  norm_num [place_bid, place_bid_admission, gateStep, ageStep, fraudStep, check_rapid_bidding, get_active_cooldown,
    cleanup_expired, mostRecentCooldown, cooldownMatches, rapidWindowChecks,
    endgameMultiplier, is_auction_endgame, scaledThreshold, check_window,
    check_global_velocity_soft, check_global_velocity_hard,
    check_minimum_increment_pattern, sortByTimeAsc, countMinimalIncrements,
    create_soft_challenge, create_hard_cooldown, clean_amount, freshBidId,
    analyze_bid, detect_rapid_bidding, detect_bid_sniping, detect_unusual_bid_amount,
    detect_new_account_high_value, detect_self_bidding, detect_bid_pattern_anomaly,
    detect_shill_bidding_patterns, detect_low_win_frac, detect_seller_affinity,
    detect_bid_timing_pattern, detect_collusive_bidding, sortByTimeDesc,
    insertByTimeDesc, bidProgress, get_ai_fraud_assessment, itemById, mkAlert,
    commit_winning, clearWinning, setWinning, maxByAmount, itemA, bidder7, List.find?, List.filter,
    List.dedup, settingsQuiet]

/-- C2 (amended): a bid amount strictly below `current_price + min_increment`
is rejected by form validation before any state is touched — `place_bid` fails
and the database is returned unchanged, whatever the gate, cooldown, fraud or
bypass state. -/
theorem c2_amended_reject_below_min (s : Settings) (now : Int) (db : DB)
    (bidder : UserRec) (itemId : Nat) (amount : ℚ) (item : Item)
    (hfind : db.items.find? (fun i => decide (i.id = itemId)) = some item)
    (hlt : amount < item.current_price + item.min_increment) :
    (place_bid s now db bidder itemId amount).1.success = false ∧
    (place_bid s now db bidder itemId amount).2 = db := by
  unfold place_bid
  rw [hfind]
  dsimp only
  by_cases h1 : item.seller = bidder.id
  · rw [if_pos h1]; exact ⟨rfl, rfl⟩
  · rw [if_neg h1]
    by_cases h2 : item.status ≠ Status.active
    · rw [if_pos h2]; exact ⟨rfl, rfl⟩
    · rw [if_neg h2]
      by_cases h3 : item.end_time ≤ now
      · rw [if_pos h3]; exact ⟨rfl, rfl⟩
      · rw [if_neg h3]
        obtain ⟨e, he⟩ := clean_amount_error_of_lt item amount hlt
        rw [he]
        exact ⟨rfl, rfl⟩

/-- C2 witness: the amended theorem applied at a concrete input
(bid of 505,000 against 500,000 + 10,000). -/
theorem c2_witness :
    (place_bid settingsQuiet 1000
      { items := [itemA], bids := [], cooldowns := [], alerts := [], wallets := [] }
      bidder7 1 505000).1.success = false ∧
    (place_bid settingsQuiet 1000
      { items := [itemA], bids := [], cooldowns := [], alerts := [], wallets := [] }
      bidder7 1 505000).2 =
      { items := [itemA], bids := [], cooldowns := [], alerts := [], wallets := [] } :=
  c2_amended_reject_below_min settingsQuiet 1000 _ bidder7 1 505000 itemA
    (by norm_num [List.find?, itemA]) (by norm_num [itemA])

/-! ## Claim C7 -/

/-- C7, counterexample to the claim as stated: seller 5 bids on their own item
through `place_bid`; the attempt is rejected by the early seller check, but no
`FraudAlert` row is ever produced — the alerts table stays empty because the
rejection happens before the tentative save and fraud analysis. -/
theorem c7_counterexample :
    (place_bid settingsQuiet 1000
      { items := [itemA], bids := [], cooldowns := [], alerts := [], wallets := [] }
      { id := 5, date_joined := 0, is_superuser := false,
        bypass_all_restrictions := false, bypass_rapid_bidding_check := false,
        bypass_account_age_check := false, bypass_fraud_detection := false }
      1 600000).1.success = false ∧
    (place_bid settingsQuiet 1000
      { items := [itemA], bids := [], cooldowns := [], alerts := [], wallets := [] }
      { id := 5, date_joined := 0, is_superuser := false,
        bypass_all_restrictions := false, bypass_rapid_bidding_check := false,
        bypass_account_age_check := false, bypass_fraud_detection := false }
      1 600000).2.alerts = [] ∧
    itemA.seller = 5 := by
  refine ⟨?_, ?_, by norm_num [itemA]⟩ <;>
    norm_num [place_bid, itemA, List.find?]

/-- C7 (amended): a self-bid through `place_bid` is rejected with no state
change at all, before the fraud engine can run; `detect_self_bidding` would
produce the critical `self_bidding` alert for any self-bid that reached fraud
analysis, but the early rejection prevents an alert from being recorded for the
attempt. -/
theorem c7_amended_self_bid_rejected_no_alert (s : Settings) (now : Int) (db : DB)
    (bidder : UserRec) (itemId : Nat) (amount : ℚ) (item : Item)
    (hfind : db.items.find? (fun i => decide (i.id = itemId)) = some item)
    (hself : item.seller = bidder.id) :
    place_bid s now db bidder itemId amount =
      ({ success := false, challenged := false,
         messages := [(MsgKind.error, "You cannot bid on your own item!")] }, db) ∧
    (∀ bid it, it.seller = bid.bidder →
      detect_self_bidding bid it =
        [mkAlert bid.bidder (some bid.item) ("self_bidding") Severity.critical]) := by
  constructor
  · unfold place_bid
    rw [hfind]
    dsimp only
    rw [if_pos hself]
  · intro bid it h
    unfold detect_self_bidding
    rw [if_pos h]

/-- C7 witness: the amended theorem applied at a concrete input. -/
theorem c7_witness :
    place_bid settingsQuiet 1000
      { items := [itemA], bids := [], cooldowns := [], alerts := [], wallets := [] }
      { id := 5, date_joined := 0, is_superuser := false,
        bypass_all_restrictions := false, bypass_rapid_bidding_check := false,
        bypass_account_age_check := false, bypass_fraud_detection := false }
      1 600000 =
      ({ success := false, challenged := false,
         messages := [(MsgKind.error, "You cannot bid on your own item!")] },
       { items := [itemA], bids := [], cooldowns := [], alerts := [], wallets := [] }) ∧
    (∀ bid it, it.seller = bid.bidder →
      detect_self_bidding bid it =
        [mkAlert bid.bidder (some bid.item) ("self_bidding") Severity.critical]) :=
  c7_amended_self_bid_rejected_no_alert settingsQuiet 1000 _ _ 1 600000 itemA
    (by norm_num [List.find?, itemA]) (by norm_num [itemA])


/-! ## Claim C9 -/

/-- An item-scoped active hard cooldown for user 7 on item 1, created at t=100. -/
def c9itemScoped : BidCooldown :=
  { user := 7, item := some 1, cooldown_type := CooldownType.hard_cooldown,
    reason := "item-scoped cooldown", expires_at := 10000, created_at := 100,
    is_active := true, captcha_required := false, captcha_passed := false,
    failed_attempts := 0 }

/-- A global active hard cooldown for user 7, created later, at t=200. -/
def c9global : BidCooldown :=
  { user := 7, item := none, cooldown_type := CooldownType.hard_cooldown,
    reason := "global cooldown", expires_at := 10000, created_at := 200,
    is_active := true, captcha_required := false, captcha_passed := false,
    failed_attempts := 0 }

/-- A store holding both cooldowns of user 7. -/
def c9db : DB :=
  { items := [], bids := [], cooldowns := [c9itemScoped, c9global], alerts := [],
    wallets := [] }

/-- C9, counterexample to the claim as stated: user 7 holds both an item-scoped
and a global active unexpired cooldown, yet `get_active_cooldown` returns the
global one because it was created more recently — scope gives no precedence, only
`created_at` ordering does. -/
theorem c9_counterexample :
    (get_active_cooldown 500 c9db 7 (some 1)).1 = some c9global ∧
    c9global.item = none ∧
    c9itemScoped ∈ c9db.cooldowns ∧ c9itemScoped.item = some 1 ∧
    c9itemScoped.user = 7 ∧ c9itemScoped.is_active = true ∧
    (500 : Int) < c9itemScoped.expires_at := by
  refine ⟨?_, by norm_num [c9global], by norm_num [c9db], by norm_num [c9itemScoped],
    by norm_num [c9itemScoped], by norm_num [c9itemScoped], by norm_num [c9itemScoped]⟩
  norm_num [get_active_cooldown, cleanup_expired, mostRecentCooldown, cooldownMatches,
    c9db, c9itemScoped, c9global, List.filter]

/-- C9 (amended): `get_active_cooldown(user, item)` returns the most recent (by
`created_at`) cooldown among the item-scoped and global candidates together, and
in all cases the returned row is active, unexpired, owned by the user and scoped
to the item or global. -/
theorem c9_amended_most_recent_active (now : Int) (db : DB) (u i : Nat)
    (c : BidCooldown)
    (h : (get_active_cooldown now db u (some i)).1 = some c) :
    c.user = u ∧ c.is_active = true ∧ now < c.expires_at ∧
      (c.item = some i ∨ c.item = none) ∧
      ∀ c' ∈ (cleanup_expired now db).cooldowns, c'.user = u → c'.is_active = true →
        now < c'.expires_at → (c'.item = some i ∨ c'.item = none) →
        c'.created_at ≤ c.created_at := by
  unfold get_active_cooldown at h
  dsimp only at h
  have hmem := mostRecentCooldown_mem h
  have hmax := mostRecentCooldown_maximal h
  rw [List.mem_filter] at hmem
  obtain ⟨_, hpred⟩ := hmem
  simp only [cooldownMatches, Bool.and_eq_true, Bool.or_eq_true,
    decide_eq_true_eq] at hpred
  obtain ⟨⟨⟨hu, ha⟩, he⟩, hscope⟩ := hpred
  refine ⟨hu, ha, he, hscope, ?_⟩
  intro c' hc' hu' ha' he' hsc'
  apply hmax
  rw [List.mem_filter]
  refine ⟨hc', ?_⟩
  simp only [cooldownMatches, Bool.and_eq_true, Bool.or_eq_true,
    decide_eq_true_eq]
  exact ⟨⟨⟨hu', ha'⟩, he'⟩, hsc'⟩

/-- C9 witness: the amended theorem applied at the concrete two-cooldown store. -/
theorem c9_witness :
    c9global.user = 7 ∧ c9global.is_active = true ∧ (500 : Int) < c9global.expires_at ∧
      (c9global.item = some 1 ∨ c9global.item = none) ∧
      ∀ c' ∈ (cleanup_expired 500 c9db).cooldowns, c'.user = 7 → c'.is_active = true →
        (500 : Int) < c'.expires_at → (c'.item = some 1 ∨ c'.item = none) →
        c'.created_at ≤ c9global.created_at :=
  c9_amended_most_recent_active 500 c9db 7 1 c9global
    (by norm_num [get_active_cooldown, cleanup_expired, mostRecentCooldown,
      cooldownMatches, c9db, c9itemScoped, c9global, List.filter])

/-! ## Claim C10 -/

/-- `buy_now` rejects without touching the database whenever the pre-transaction
checks fail. -/
theorem buy_now_of_checks_some (now : Int) (db : DB) (buyer : UserRec) (pk : Nat)
    (item : Item) (msg : String)
    (hfind : db.items.find? (fun i => decide (i.id = pk)) = some item)
    (hck : buy_now_checks now db buyer item = some msg) :
    buy_now now db buyer pk = ({ success := false, message := msg }, db) := by
  unfold buy_now
  rw [hfind]
  dsimp only
  rw [hck]

/-- When the item already has a bid, one of the pre-transaction checks fires
(at latest the bids-exist check). -/
theorem buy_now_checks_some_of_bids (now : Int) (db : DB) (buyer : UserRec)
    (item : Item)
    (hb : (db.bids.any fun b => decide (b.item = item.id)) = true) :
    ∃ msg, buy_now_checks now db buyer item = some msg := by
  unfold buy_now_checks
  by_cases h1 : item.status ≠ Status.active
  · exact ⟨_, if_pos h1⟩
  · rw [if_neg h1]
    by_cases h2 : item.end_time ≤ now
    · exact ⟨_, if_pos h2⟩
    · rw [if_neg h2]
      by_cases h3 : item.buy_now_price.getD 0 = 0
      · exact ⟨_, if_pos h3⟩
      · rw [if_neg h3]
        by_cases h4 : item.seller = buyer.id
        · exact ⟨_, if_pos h4⟩
        · rw [if_neg h4]
          rw [if_pos hb]
          exact ⟨_, rfl⟩

/-- When the earlier checks all pass and the item has a bid, the failing check is
exactly the bids-exist one, with its message. -/
theorem buy_now_checks_bids_msg (now : Int) (db : DB) (buyer : UserRec)
    (item : Item)
    (hact : item.status = Status.active) (hend : now < item.end_time)
    (hbn : item.buy_now_price.getD 0 ≠ 0) (hsell : item.seller ≠ buyer.id)
    (hb : (db.bids.any fun b => decide (b.item = item.id)) = true) :
    buy_now_checks now db buyer item =
      some ("Buy Now is no longer available. Bidding has started.") := by
  unfold buy_now_checks
  rw [if_neg (fun h => h hact), if_neg (not_le.mpr hend), if_neg hbn, if_neg hsell,
    if_pos hb]

/-- C10: an item with at least one bid can never be bought via Buy Now — the
attempt is rejected before any state change, and when every earlier check passes
the rejection carries the dedicated message. -/
theorem c10_buy_now_rejected_with_bids (now : Int) (db : DB) (buyer : UserRec)
    (pk : Nat) (hb : ∃ b ∈ db.bids, b.item = pk) :
    (buy_now now db buyer pk).1.success = false ∧
    (buy_now now db buyer pk).2 = db ∧
    ∀ item, db.items.find? (fun i => decide (i.id = pk)) = some item →
      item.status = Status.active → now < item.end_time →
      item.buy_now_price.getD 0 ≠ 0 → item.seller ≠ buyer.id →
      (buy_now now db buyer pk).1.message =
        "Buy Now is no longer available. Bidding has started." := by
  cases hfind : db.items.find? (fun i => decide (i.id = pk)) with
  | none =>
    unfold buy_now
    rw [hfind]
    exact ⟨rfl, rfl, fun item h => absurd h (by simp)⟩
  | some item =>
    have hid : item.id = pk := by
      have := List.find?_some hfind
      simpa using this
    have hany : (db.bids.any fun b => decide (b.item = item.id)) = true := by
      rw [List.any_eq_true]
      obtain ⟨b, hbmem, hbi⟩ := hb
      exact ⟨b, hbmem, decide_eq_true (hid ▸ hbi)⟩
    obtain ⟨msg, hck⟩ := buy_now_checks_some_of_bids now db buyer item hany
    have hres := buy_now_of_checks_some now db buyer pk item msg hfind hck
    refine ⟨by rw [hres], by rw [hres], ?_⟩
    intro item' hfind' hact hend hbn hsell
    have hii : item' = item := (Option.some.inj hfind').symm
    subst hii
    have hmsg := buy_now_checks_bids_msg now db buyer item' hact hend hbn hsell hany
    rw [hck] at hmsg
    have : msg = "Buy Now is no longer available. Bidding has started." := by
      simpa using hmsg
    rw [hres, this]

/-- An item offered with a Buy Now price of 800,000 (id 2, seller 5). -/
def itemBN : Item :=
  { id := 2, seller := 5, current_price := 300000, min_increment := 10000,
    buy_now_price := some 800000, status := Status.active, created_at := 0,
    end_time := 100000, bid_count := 1, winner := none }

/-- C10 witness: the theorem applied to a store where item 2 already has a bid
from user 9 — the buy-now attempt of user 7 is rejected with the dedicated
message and no state change. -/
theorem c10_witness :
    (buy_now 1000
      { items := [itemBN],
        bids := [{ id := 1, item := 2, bidder := 9, amount := 310000, bid_time := 500,
                   is_winning := true }],
        cooldowns := [], alerts := [],
        wallets := [{ user := 7, balance := 900000 }] } bidder7 2).1.success = false ∧
    (buy_now 1000
      { items := [itemBN],
        bids := [{ id := 1, item := 2, bidder := 9, amount := 310000, bid_time := 500,
                   is_winning := true }],
        cooldowns := [], alerts := [],
        wallets := [{ user := 7, balance := 900000 }] } bidder7 2).2 =
      { items := [itemBN],
        bids := [{ id := 1, item := 2, bidder := 9, amount := 310000, bid_time := 500,
                   is_winning := true }],
        cooldowns := [], alerts := [],
        wallets := [{ user := 7, balance := 900000 }] } ∧
    (buy_now 1000
      { items := [itemBN],
        bids := [{ id := 1, item := 2, bidder := 9, amount := 310000, bid_time := 500,
                   is_winning := true }],
        cooldowns := [], alerts := [],
        wallets := [{ user := 7, balance := 900000 }] } bidder7 2).1.message =
      "Buy Now is no longer available. Bidding has started." := by
  have h := c10_buy_now_rejected_with_bids 1000
    { items := [itemBN],
      bids := [{ id := 1, item := 2, bidder := 9, amount := 310000, bid_time := 500,
                 is_winning := true }],
      cooldowns := [], alerts := [],
      wallets := [{ user := 7, balance := 900000 }] } bidder7 2
    ⟨{ id := 1, item := 2, bidder := 9, amount := 310000, bid_time := 500,
       is_winning := true }, by norm_num, rfl⟩
  exact ⟨h.1, h.2.1, h.2.2 itemBN (by norm_num [List.find?, itemBN])
    (by norm_num [itemBN]) (by norm_num [itemBN]) (by norm_num [itemBN])
    (by norm_num [itemBN, bidder7])⟩


/-! ## Claim C4 -/

/-- Lazy expiry rewrites rows without touching `user`, `item`, `cooldown_type` or
`created_at`, so the escalation counter of `_create_soft_challenge` sees the same
rows before and after `cleanup_expired`. -/
theorem length_filter_cleanup (now : Int) (u : Nat) (it : Option Nat)
    (l : List BidCooldown) :
    ((l.map fun c =>
        if c.is_active ∧ c.expires_at ≤ now then { c with is_active := false } else c).filter
      fun c => decide (c.user = u) && decide (c.item = it) &&
        decide (c.cooldown_type = CooldownType.soft_challenge) &&
        decide (c.created_at ≥ now - 3600)).length =
    (l.filter fun c => decide (c.user = u) && decide (c.item = it) &&
        decide (c.cooldown_type = CooldownType.soft_challenge) &&
        decide (c.created_at ≥ now - 3600)).length := by
  induction l with
  | nil => rfl
  | cons c cs ih =>
    simp only [List.map_cons, List.filter_cons]
    by_cases hc : c.is_active ∧ c.expires_at ≤ now
    · rw [if_pos hc]
      have hpp : (decide (({ c with is_active := false } : BidCooldown).user = u) &&
          decide (({ c with is_active := false } : BidCooldown).item = it) &&
          decide (({ c with is_active := false } : BidCooldown).cooldown_type =
            CooldownType.soft_challenge) &&
          decide (({ c with is_active := false } : BidCooldown).created_at ≥ now - 3600)) =
          (decide (c.user = u) && decide (c.item = it) &&
            decide (c.cooldown_type = CooldownType.soft_challenge) &&
            decide (c.created_at ≥ now - 3600)) := rfl
      rw [hpp]
      by_cases hpc : (decide (c.user = u) && decide (c.item = it) &&
          decide (c.cooldown_type = CooldownType.soft_challenge) &&
          decide (c.created_at ≥ now - 3600)) = true
      · rw [if_pos hpc, if_pos hpc]
        simp only [List.length_cons, ih]
      · rw [if_neg hpc, if_neg hpc]
        exact ih
    · rw [if_neg hc]
      by_cases hpc : (decide (c.user = u) && decide (c.item = it) &&
          decide (c.cooldown_type = CooldownType.soft_challenge) &&
          decide (c.created_at ≥ now - 3600)) = true
      · rw [if_pos hpc, if_pos hpc]
        simp only [List.length_cons, ih]
      · rw [if_neg hpc, if_neg hpc]
        exact ih

/-- With at least two qualifying recent soft challenges, `_create_soft_challenge`
escalates: it creates a doubled hard cooldown and reports escalation. -/
theorem create_soft_challenge_escalates (s : Settings) (now : Int) (db : DB)
    (u : Nat) (it : Option Nat) (reason : String)
    (h : (db.cooldowns.filter fun c =>
        decide (c.user = u) && decide (c.item = it) &&
          decide (c.cooldown_type = CooldownType.soft_challenge) &&
          decide (c.created_at ≥ now - 3600)).length ≥ 2) :
    create_soft_challenge s now db u it reason =
      (true, create_hard_cooldown now db u it (2 * s.RAPID_BID_COOLDOWN_DURATION)
        ("Repeated soft challenge violations")) := by
  unfold create_soft_challenge
  rw [if_pos h]

/-- C4: with no active cooldown in force, a breach of the 2-minute soft window,
and two `soft_challenge` rows for the same (user, item) scope created within the
last hour, `check_rapid_bidding` blocks with action `hard_cooldown` and the store
gains exactly one new row — a hard cooldown of twice the configured duration —
instead of a third soft challenge. -/
theorem c4_soft_challenge_escalates (s : Settings) (now : Int) (db : DB) (u : Nat)
    (item : Item) (amt : ℚ)
    (hnocd : (get_active_cooldown now db u (some item.id)).1 = none)
    (hsoft2 : (check_window (db.bids.filter fun b =>
        decide (b.bidder = u) && decide (b.item = item.id)) now
        (s.RAPID_BID_SOFT_WINDOW_2MIN * 60)
        (scaledThreshold s.RAPID_BID_SOFT_THRESHOLD_2MIN
          (endgameMultiplier s now item))).1 = true)
    (hrecent : (db.cooldowns.filter fun c =>
        decide (c.user = u) && decide (c.item = some item.id) &&
          decide (c.cooldown_type = CooldownType.soft_challenge) &&
          decide (c.created_at ≥ now - 3600)).length = 2) :
    (check_rapid_bidding s now db u item amt).1.is_allowed = false ∧
    (check_rapid_bidding s now db u item amt).1.action = "hard_cooldown" ∧
    (check_rapid_bidding s now db u item amt).2.cooldowns =
      (cleanup_expired now db).cooldowns ++
        [{ user := u, item := some item.id,
           cooldown_type := CooldownType.hard_cooldown,
           reason := "Repeated soft challenge violations",
           expires_at := now + 2 * s.RAPID_BID_COOLDOWN_DURATION, created_at := now,
           is_active := true, captcha_required := false, captcha_passed := false,
           failed_attempts := 0 }] := by
  have hcr : check_rapid_bidding s now db u item amt =
      rapidWindowChecks s now (cleanup_expired now db) u item amt := by
    simp only [check_rapid_bidding]
    rw [hnocd]
    rfl
  have hbids : (cleanup_expired now db).bids = db.bids := rfl
  have hcc : (cleanup_expired now db).cooldowns =
      db.cooldowns.map (fun c =>
        if c.is_active ∧ c.expires_at ≤ now then { c with is_active := false } else c) := rfl
  have hrecent' : ((cleanup_expired now db).cooldowns.filter fun c =>
      decide (c.user = u) && decide (c.item = some item.id) &&
        decide (c.cooldown_type = CooldownType.soft_challenge) &&
        decide (c.created_at ≥ now - 3600)).length ≥ 2 := by
    rw [hcc, length_filter_cleanup, hrecent]
  rw [hcr]
  simp only [rapidWindowChecks]
  rw [hbids]
  rw [create_soft_challenge_escalates s now (cleanup_expired now db) u (some item.id)
    _ hrecent']
  simp only [hsoft2, Bool.true_or, eq_self_iff_true, if_true]
  exact ⟨trivial, trivial, rfl⟩

/-- C4 witness: user 7 on item 1 with two recent (now inactive) soft challenges,
a 2-minute soft threshold of 1 (so the pending bid alone breaches it) and no
active cooldown; the third qualifying event yields a hard cooldown. -/
theorem c4_witness :
    ((get_active_cooldown 1000
      { items := [itemA], bids := [],
        cooldowns :=
          [{ user := 7, item := some 1, cooldown_type := CooldownType.soft_challenge,
             reason := "first challenge", expires_at := 800, created_at := 100,
             is_active := false, captcha_required := true, captcha_passed := false,
             failed_attempts := 0 },
           { user := 7, item := some 1, cooldown_type := CooldownType.soft_challenge,
             reason := "second challenge", expires_at := 900, created_at := 300,
             is_active := false, captcha_required := true, captcha_passed := false,
             failed_attempts := 0 }],
        alerts := [], wallets := [] } 7 (some 1)).1 = none) ∧
    (check_rapid_bidding { settingsQuiet with RAPID_BID_SOFT_THRESHOLD_2MIN := 1 } 1000
      { items := [itemA], bids := [],
        cooldowns :=
          [{ user := 7, item := some 1, cooldown_type := CooldownType.soft_challenge,
             reason := "first challenge", expires_at := 800, created_at := 100,
             is_active := false, captcha_required := true, captcha_passed := false,
             failed_attempts := 0 },
           { user := 7, item := some 1, cooldown_type := CooldownType.soft_challenge,
             reason := "second challenge", expires_at := 900, created_at := 300,
             is_active := false, captcha_required := true, captcha_passed := false,
             failed_attempts := 0 }],
        alerts := [], wallets := [] } 7 itemA 510000).1.is_allowed = false ∧
    (check_rapid_bidding { settingsQuiet with RAPID_BID_SOFT_THRESHOLD_2MIN := 1 } 1000
      { items := [itemA], bids := [],
        cooldowns :=
          [{ user := 7, item := some 1, cooldown_type := CooldownType.soft_challenge,
             reason := "first challenge", expires_at := 800, created_at := 100,
             is_active := false, captcha_required := true, captcha_passed := false,
             failed_attempts := 0 },
           { user := 7, item := some 1, cooldown_type := CooldownType.soft_challenge,
             reason := "second challenge", expires_at := 900, created_at := 300,
             is_active := false, captcha_required := true, captcha_passed := false,
             failed_attempts := 0 }],
        alerts := [], wallets := [] } 7 itemA 510000).1.action = "hard_cooldown" := by
  have h := c4_soft_challenge_escalates
    { settingsQuiet with RAPID_BID_SOFT_THRESHOLD_2MIN := 1 } 1000
    { items := [itemA], bids := [],
      cooldowns :=
        [{ user := 7, item := some 1, cooldown_type := CooldownType.soft_challenge,
           reason := "first challenge", expires_at := 800, created_at := 100,
           is_active := false, captcha_required := true, captcha_passed := false,
           failed_attempts := 0 },
         { user := 7, item := some 1, cooldown_type := CooldownType.soft_challenge,
           reason := "second challenge", expires_at := 900, created_at := 300,
           is_active := false, captcha_required := true, captcha_passed := false,
           failed_attempts := 0 }],
      alerts := [], wallets := [] } 7 itemA 510000
    (by norm_num [get_active_cooldown, cleanup_expired, mostRecentCooldown,
      cooldownMatches, List.filter, itemA])
    (by norm_num [check_window, scaledThreshold, endgameMultiplier,
      is_auction_endgame, itemA, settingsQuiet, List.filter])
    (by norm_num [List.filter, itemA])
  refine ⟨?_, h.1, h.2.1⟩
  norm_num [get_active_cooldown, cleanup_expired, mostRecentCooldown,
    cooldownMatches, List.filter]


/-! ## Claim C6 -/

/-- With fewer than two qualifying recent soft challenges,
`_create_soft_challenge` does not escalate. -/
theorem create_soft_challenge_no_escalation (s : Settings) (now : Int) (db : DB)
    (u : Nat) (it : Option Nat) (reason : String)
    (h : (db.cooldowns.filter fun c =>
        decide (c.user = u) && decide (c.item = it) &&
          decide (c.cooldown_type = CooldownType.soft_challenge) &&
          decide (c.created_at ≥ now - 3600)).length < 2) :
    (create_soft_challenge s now db u it reason).1 = false := by
  simp only [create_soft_challenge]
  rw [if_neg (by omega)]

/-- C6: in the endgame window with base 2-minute soft threshold 5 and multiplier
2.0, the effective threshold is `ceil(5 × 2) = 10` counting the pending bid: with
8 prior bids in the window every check passes (the 9th bid is admitted by the
gate), while with 9 prior bids the 2-minute soft check fires and the 10th bid is
soft-challenged (absent escalation). -/
theorem c6_endgame_threshold (s : Settings) (now : Int) (u : Nat) (item : Item)
    (amt : ℚ)
    (hthr : s.RAPID_BID_SOFT_THRESHOLD_2MIN = 5)
    (hmul : s.AUCTION_ENDGAME_MULTIPLIER = 2)
    (hendg : is_auction_endgame s now item = true) :
    scaledThreshold s.RAPID_BID_SOFT_THRESHOLD_2MIN (endgameMultiplier s now item) = 10 ∧
    (∀ db : DB,
      (get_active_cooldown now db u (some item.id)).1 = none →
      ((db.bids.filter fun b => decide (b.bidder = u) && decide (b.item = item.id)).filter
        fun b => decide (b.bid_time ≥ now - s.RAPID_BID_SOFT_WINDOW_2MIN * 60)).length = 8 →
      (check_window (db.bids.filter fun b => decide (b.bidder = u) && decide (b.item = item.id))
        now (s.RAPID_BID_SOFT_WINDOW_5MIN * 60)
        (scaledThreshold s.RAPID_BID_SOFT_THRESHOLD_5MIN (endgameMultiplier s now item))).1 = false →
      (check_window (db.bids.filter fun b => decide (b.bidder = u) && decide (b.item = item.id))
        now (s.RAPID_BID_HARD_WINDOW_5MIN * 60)
        (scaledThreshold s.RAPID_BID_HARD_THRESHOLD_5MIN (endgameMultiplier s now item))).1 = false →
      (check_window (db.bids.filter fun b => decide (b.bidder = u) && decide (b.item = item.id))
        now s.RAPID_BID_HARD_WINDOW_20SEC
        (scaledThreshold s.RAPID_BID_HARD_THRESHOLD_20SEC (endgameMultiplier s now item))).1 = false →
      check_global_velocity_soft s now db u = false →
      check_global_velocity_hard s now db u = false →
      check_minimum_increment_pattern s now db u item amt = false →
      (check_rapid_bidding s now db u item amt).1 =
        { is_allowed := true, action := "allow", message := "Bid allowed",
          cooldown_duration := none }) ∧
    (∀ db : DB,
      (get_active_cooldown now db u (some item.id)).1 = none →
      ((db.bids.filter fun b => decide (b.bidder = u) && decide (b.item = item.id)).filter
        fun b => decide (b.bid_time ≥ now - s.RAPID_BID_SOFT_WINDOW_2MIN * 60)).length = 9 →
      (db.cooldowns.filter fun c =>
        decide (c.user = u) && decide (c.item = some item.id) &&
          decide (c.cooldown_type = CooldownType.soft_challenge) &&
          decide (c.created_at ≥ now - 3600)).length < 2 →
      (check_rapid_bidding s now db u item amt).1.is_allowed = false ∧
      (check_rapid_bidding s now db u item amt).1.action = "soft_challenge") := by
  have h10 : scaledThreshold s.RAPID_BID_SOFT_THRESHOLD_2MIN
      (endgameMultiplier s now item) = 10 := by
    rw [hthr]
    unfold endgameMultiplier
    rw [hendg]
    simp only [if_true]
    rw [hmul]
    norm_num [scaledThreshold]
  refine ⟨h10, ?_, ?_⟩
  · intro db hnocd hcount hsoft5 hhard5 hhard20 hgs hgh hmin
    have hcr : check_rapid_bidding s now db u item amt =
        rapidWindowChecks s now (cleanup_expired now db) u item amt := by
      simp only [check_rapid_bidding]
      rw [hnocd]
      rfl
    have hbids : (cleanup_expired now db).bids = db.bids := rfl
    have hgs' : check_global_velocity_soft s now (cleanup_expired now db) u = false := hgs
    have hgh' : check_global_velocity_hard s now (cleanup_expired now db) u = false := hgh
    have hmin' :
        check_minimum_increment_pattern s now (cleanup_expired now db) u item amt =
          false := hmin
    have hsoft2eval : (check_window (db.bids.filter fun b =>
        decide (b.bidder = u) && decide (b.item = item.id)) now
        (s.RAPID_BID_SOFT_WINDOW_2MIN * 60)
        (scaledThreshold s.RAPID_BID_SOFT_THRESHOLD_2MIN
          (endgameMultiplier s now item))).1 = false := by
      simp only [check_window]
      rw [hcount, h10]
      norm_num
    rw [hcr]
    simp only [rapidWindowChecks]
    rw [hbids]
    simp [hsoft2eval, hsoft5, hhard5, hhard20, hgs', hgh', hmin']
  · intro db hnocd hcount hless
    have hcr : check_rapid_bidding s now db u item amt =
        rapidWindowChecks s now (cleanup_expired now db) u item amt := by
      simp only [check_rapid_bidding]
      rw [hnocd]
      rfl
    have hbids : (cleanup_expired now db).bids = db.bids := rfl
    have hcc : (cleanup_expired now db).cooldowns =
        db.cooldowns.map (fun c =>
          if c.is_active ∧ c.expires_at ≤ now then { c with is_active := false }
          else c) := rfl
    have hless' : ((cleanup_expired now db).cooldowns.filter fun c =>
        decide (c.user = u) && decide (c.item = some item.id) &&
          decide (c.cooldown_type = CooldownType.soft_challenge) &&
          decide (c.created_at ≥ now - 3600)).length < 2 := by
      rw [hcc, length_filter_cleanup]
      exact hless
    have hnoesc : ∀ reason, (create_soft_challenge s now (cleanup_expired now db) u
        (some item.id) reason).1 = false := fun reason =>
      create_soft_challenge_no_escalation s now (cleanup_expired now db) u
        (some item.id) reason hless'
    have hsoft2eval : (check_window (db.bids.filter fun b =>
        decide (b.bidder = u) && decide (b.item = item.id)) now
        (s.RAPID_BID_SOFT_WINDOW_2MIN * 60)
        (scaledThreshold s.RAPID_BID_SOFT_THRESHOLD_2MIN
          (endgameMultiplier s now item))).1 = true := by
      simp only [check_window]
      rw [hcount, h10]
      norm_num
    rw [hcr]
    simp only [rapidWindowChecks]
    rw [hbids]
    simp [hsoft2eval, hnoesc]

/-- An active auction (id 1, seller 5) in its endgame: it ends 60 seconds after
t = 1000 and the endgame window is 5 minutes. -/
def itemE : Item :=
  { id := 1, seller := 5, current_price := 500000, min_increment := 10000,
    buy_now_price := none, status := Status.active, created_at := 0,
    end_time := 1060, bid_count := 8, winner := none }

/-- The n-th recent bid of user 7 on item 1 inside the 2-minute window before
t = 1000. -/
def c6bid (n : Nat) : Bid :=
  { id := n, item := 1, bidder := 7, amount := 500000, bid_time := 900 + n,
    is_winning := false }

/-- The C6 configuration: the quiet settings with the 2-minute soft threshold
at 5 (endgame multiplier 2.0). -/
def c6settings : Settings := { settingsQuiet with RAPID_BID_SOFT_THRESHOLD_2MIN := 5 }

/-- Store for the 9th bid: 8 prior window bids of user 7 on item 1. -/
def c6db1 : DB :=
  { items := [itemE],
    bids := [c6bid 1, c6bid 2, c6bid 3, c6bid 4, c6bid 5, c6bid 6, c6bid 7, c6bid 8],
    cooldowns := [], alerts := [], wallets := [] }

/-- Store for the 10th bid: 9 prior window bids of user 7 on item 1. -/
def c6db2 : DB :=
  { items := [itemE],
    bids := [c6bid 1, c6bid 2, c6bid 3, c6bid 4, c6bid 5, c6bid 6, c6bid 7,
             c6bid 8, c6bid 9],
    cooldowns := [], alerts := [], wallets := [] }

/-- C6 witness: with the quiet configuration specialised to a 2-minute soft
threshold of 5 (multiplier 2.0), a 9th bid after 8 window bids is allowed and a
10th bid after 9 window bids is soft-challenged. -/
theorem c6_witness :
    (check_rapid_bidding c6settings 1000 c6db1 7 itemE 600000).1 =
      { is_allowed := true, action := "allow", message := "Bid allowed",
        cooldown_duration := none } ∧
    (check_rapid_bidding c6settings 1000 c6db2 7 itemE 600000).1.is_allowed = false ∧
    (check_rapid_bidding c6settings 1000 c6db2 7 itemE 600000).1.action =
      "soft_challenge" := by
  have h := c6_endgame_threshold c6settings 1000 7 itemE 600000
    (by norm_num [c6settings, settingsQuiet]) (by norm_num [c6settings, settingsQuiet])
    (by norm_num [is_auction_endgame, itemE, c6settings, settingsQuiet])
  have h1 := h.2.1 c6db1
    (by norm_num [get_active_cooldown, cleanup_expired, mostRecentCooldown,
      cooldownMatches, List.filter, c6db1])
    (by norm_num [List.filter, c6bid, itemE, c6settings, settingsQuiet, c6db1])
    (by norm_num [check_window, scaledThreshold, endgameMultiplier,
      is_auction_endgame, itemE, c6settings, settingsQuiet, List.filter, c6bid, c6db1])
    (by norm_num [check_window, scaledThreshold, endgameMultiplier,
      is_auction_endgame, itemE, c6settings, settingsQuiet, List.filter, c6bid, c6db1])
    (by norm_num [check_window, scaledThreshold, endgameMultiplier,
      is_auction_endgame, itemE, c6settings, settingsQuiet, List.filter, c6bid, c6db1])
    (by norm_num [check_global_velocity_soft, c6settings, settingsQuiet, List.filter,
      c6bid, c6db1])
    (by norm_num [check_global_velocity_hard, c6settings, settingsQuiet, List.filter,
      c6bid, c6db1])
    (by norm_num [check_minimum_increment_pattern, c6settings, settingsQuiet,
      List.filter, c6bid, itemE, sortByTimeAsc, insertByTimeAsc, c6db1])
  have h2 := h.2.2 c6db2
    (by norm_num [get_active_cooldown, cleanup_expired, mostRecentCooldown,
      cooldownMatches, List.filter, c6db2])
    (by norm_num [List.filter, c6bid, itemE, c6settings, settingsQuiet, c6db2])
    (by norm_num [List.filter, c6db2])
  exact ⟨h1, h2.1, h2.2⟩


/-! ## Claim C3 -/

theorem le_foldr_max (m : List Nat) : ∀ x ∈ m, x ≤ m.foldr max 0 := by
  induction m with
  | nil => simp
  | cons a as ih =>
    intro x hx
    rcases List.mem_cons.mp hx with h | h
    · subst h; exact le_max_left _ _
    · exact le_trans (ih x h) (le_max_right _ _)

/-- Every existing row id is strictly below the fresh id. -/
theorem id_lt_freshBidId (l : List Bid) : ∀ b ∈ l, b.id < freshBidId l := by
  intro b hb
  have := le_foldr_max (l.map Bid.id) b.id (List.mem_map_of_mem _ hb)
  unfold freshBidId
  omega

/-- Deleting the freshly inserted tentative bid by primary key restores the
original bid table. -/
theorem filter_fresh_append (l : List Bid) (b : Bid) (hb : b.id = freshBidId l) :
    (l ++ [b]).filter (fun x => decide (x.id ≠ freshBidId l)) = l := by
  rw [List.filter_append]
  have h1 : List.filter (fun x => decide (x.id ≠ freshBidId l)) [b] = [] := by
    simp [hb]
  have h2 : List.filter (fun x => decide (x.id ≠ freshBidId l)) l = l := by
    rw [List.filter_eq_self]
    intro x hx
    exact decide_eq_true (Nat.ne_of_lt (id_lt_freshBidId l x hx))
  rw [h1, h2, List.append_nil]

/-- Both branches of an `if` that agree on the second component project to it. -/
theorem ite_snd_eq {α β : Type} (c : Prop) [Decidable c] (a b : α) (d : β) :
    (if c then (a, d) else (b, d)).2 = d := by
  split <;> rfl

/-- Gate cooldown creation never touches the bid table. -/
theorem create_soft_challenge_bids (s : Settings) (now : Int) (db : DB) (u : Nat)
    (it : Option Nat) (reason : String) :
    (create_soft_challenge s now db u it reason).2.bids = db.bids := by
  simp only [create_soft_challenge]
  split
  · rfl
  · split <;> rfl

/-- The window checks never touch the bid table. -/
theorem rapidWindowChecks_bids (s : Settings) (now : Int) (db : DB) (u : Nat)
    (item : Item) (amt : ℚ) :
    (rapidWindowChecks s now db u item amt).2.bids = db.bids := by
  simp only [rapidWindowChecks]
  split
  · rw [ite_snd_eq]
    exact create_soft_challenge_bids _ _ _ _ _ _
  · split
    · rfl
    · split
      · exact create_soft_challenge_bids _ _ _ _ _ _
      · split
        · rfl
        · split
          · exact create_soft_challenge_bids _ _ _ _ _ _
          · rfl

/-- The whole gate never touches the bid table. -/
theorem check_rapid_bidding_bids (s : Settings) (now : Int) (db : DB) (u : Nat)
    (item : Item) (amt : ℚ) :
    (check_rapid_bidding s now db u item amt).2.bids = db.bids := by
  simp only [check_rapid_bidding]
  split
  · split
    · rfl
    · split
      · rfl
      · exact rapidWindowChecks_bids _ _ _ _ _ _
  · exact rapidWindowChecks_bids _ _ _ _ _ _

/-- Step 1 of the gate blocks whenever the user holds an active, unexpired
cooldown covering the item (item-scoped or global), provided the store satisfies
the two run-time invariants the code maintains: active soft challenges have not
passed CAPTCHA, and no `captcha_failed`-typed row is active (the code never
creates one). -/
theorem check_rapid_bidding_blocked (s : Settings) (now : Int) (db : DB) (u : Nat)
    (item : Item) (amt : ℚ)
    (hcd : ∃ c ∈ db.cooldowns, c.user = u ∧ c.is_active = true ∧ now < c.expires_at ∧
      (c.item = some item.id ∨ c.item = none))
    (hinv : ∀ c ∈ db.cooldowns, c.is_active = true → c.user = u →
      (c.cooldown_type = CooldownType.soft_challenge → c.captcha_passed = false) ∧
      c.cooldown_type ≠ CooldownType.captcha_failed) :
    (check_rapid_bidding s now db u item amt).1.is_allowed = false := by
  obtain ⟨c, hcmem, hcu, hca, hce, hcs⟩ := hcd
  have hc_clean : c ∈ (cleanup_expired now db).cooldowns := by
    simp only [cleanup_expired]
    refine List.mem_map.mpr ⟨c, hcmem, ?_⟩
    rw [if_neg]
    intro ⟨_, h2⟩
    omega
  have hc_filt : c ∈ (cleanup_expired now db).cooldowns.filter
      (cooldownMatches now u (some item.id)) := by
    rw [List.mem_filter]
    refine ⟨hc_clean, ?_⟩
    simp only [cooldownMatches, Bool.and_eq_true, Bool.or_eq_true, decide_eq_true_eq]
    exact ⟨⟨⟨hcu, hca⟩, hce⟩, hcs⟩
  have hsome := mostRecentCooldown_isSome
    (l := (cleanup_expired now db).cooldowns.filter (cooldownMatches now u (some item.id)))
    (by intro h; rw [h] at hc_filt; simp at hc_filt)
  obtain ⟨cd, hcd_eq⟩ := Option.isSome_iff_exists.mp hsome
  have hcd_mem := mostRecentCooldown_mem hcd_eq
  rw [List.mem_filter] at hcd_mem
  obtain ⟨hcd_clean, hcd_pred⟩ := hcd_mem
  simp only [cooldownMatches, Bool.and_eq_true, Bool.or_eq_true,
    decide_eq_true_eq] at hcd_pred
  obtain ⟨⟨⟨hcdu, hcda⟩, _⟩, _⟩ := hcd_pred
  have hinv_cd := hinv cd (mem_of_active_cleanup hcd_clean hcda) hcda hcdu
  have hga : (get_active_cooldown now db u (some item.id)).1 = some cd := hcd_eq
  simp only [check_rapid_bidding]
  rw [hga]
  dsimp only
  cases htype : cd.cooldown_type with
  | soft_challenge =>
    rw [if_pos ⟨rfl, hinv_cd.1 htype⟩]
  | hard_cooldown =>
    rw [if_neg (fun h => absurd h.1 (by decide)), if_pos (Or.inl rfl)]
  | captcha_failed => exact absurd htype hinv_cd.2
  | suspended =>
    rw [if_neg (fun h => absurd h.1 (by decide)), if_pos (Or.inr rfl)]

/-- The account-age step keeps a rejection marked. -/
theorem ageStep_reject (s : Settings) (now : Int) (bidder : UserRec) (amount : ℚ)
    (st : StepState) (h : st.reject = true) :
    (ageStep s now bidder amount st).reject = true := by
  simp only [ageStep]
  split
  · rfl
  · exact h

/-- The account-age step never touches the database. -/
theorem ageStep_db (s : Settings) (now : Int) (bidder : UserRec) (amount : ℚ)
    (st : StepState) : (ageStep s now bidder amount st).db = st.db := by
  simp only [ageStep]
  split <;> rfl

/-- A successful `analyze_bid` only appends the produced alerts to the store. -/
theorem analyze_bid_ok_spec (s : Settings) (now : Int) (db : DB) (bid : Bid)
    (bidder : UserRec) (item : Item) (al : List FraudAlert) (db' : DB)
    (h : analyze_bid s now db bid bidder item = Except.ok (al, db')) :
    db' = { db with alerts := db.alerts ++ al } := by
  unfold analyze_bid at h
  cases h6 : detect_bid_pattern_anomaly s db bid with
  | error e =>
    rw [h6] at h
    simp only [bind, Except.bind] at h
    exact absurd h (by simp)
  | ok a6 =>
    rw [h6] at h
    simp only [bind, Except.bind, pure, Except.pure, Except.ok.injEq,
      Prod.mk.injEq] at h
    obtain ⟨hal, hdb⟩ := h
    rw [← hdb, ← hal]

/-- The fraud step keeps a rejection marked. -/
theorem fraudStep_reject (s : Settings) (now : Int) (bidder : UserRec)
    (item : Item) (bid : Bid) (st : StepState) (h : st.reject = true) :
    (fraudStep s now bidder item bid st).reject = true := by
  simp only [fraudStep]
  split
  · exact h
  · split
    · exact h
    · split
      · split
        · rfl
        · exact h
      · exact h

/-- The fraud step never touches the bid table. -/
theorem fraudStep_bids (s : Settings) (now : Int) (bidder : UserRec)
    (item : Item) (bid : Bid) (st : StepState) :
    (fraudStep s now bidder item bid st).db.bids = st.db.bids := by
  simp only [fraudStep]
  split
  · rfl
  · rename_i alerts db3 heq
    have hdb3 := analyze_bid_ok_spec s now st.db bid bidder item alerts db3 heq
    subst hdb3
    split
    · rfl
    · split
      · split <;> rfl
      · rfl

/-- When the gate runs (no bypass) and blocks, the admission pipeline deletes the
tentative bid and rejects: the bid table comes back unchanged. -/
theorem place_bid_admission_gate_blocked (s : Settings) (now : Int) (db : DB)
    (bidder : UserRec) (item : Item) (amount : ℚ)
    (hsb : bidder.is_superuser = false) (hab : bidder.bypass_all_restrictions = false)
    (hrb : bidder.bypass_rapid_bidding_check = false)
    (hgate : (check_rapid_bidding s now db bidder.id item amount).1.is_allowed = false) :
    (place_bid_admission s now db bidder item amount).1.success = false ∧
    (place_bid_admission s now db bidder item amount).2.bids = db.bids := by
  have hgatestep_reject : (gateStep s now db bidder item amount).reject = true := by
    simp only [gateStep, hsb, hab, hrb, Bool.false_or, Bool.or_self, hgate,
      Bool.false_eq_true, if_false]
    split <;> rfl
  have hgatestep_db : (gateStep s now db bidder item amount).db =
      (check_rapid_bidding s now db bidder.id item amount).2 := by
    simp only [gateStep, hsb, hab, hrb, Bool.false_or, Bool.or_self, hgate,
      Bool.false_eq_true, if_false]
    split <;> rfl
  simp only [place_bid_admission]
  split
  · refine ⟨rfl, ?_⟩
    rw [fraudStep_bids]
    dsimp only
    rw [filter_fresh_append _ _ rfl]
    rw [ageStep_db, hgatestep_db]
    exact check_rapid_bidding_bids _ _ _ _ _ _
  · rename_i hfr
    exfalso
    apply hfr
    apply fraudStep_reject
    exact ageStep_reject s now bidder amount _ hgatestep_reject

/-- C3 (amended): for a bidder without rapid-bidding bypass (not a superuser, no
bypass flags), while an active `hard_cooldown` or `suspended` row covering the
item (item-scoped or global) is unexpired, no `place_bid` attempt is admitted and
the bid table is unchanged — whatever the amount or fraud situation. (The store
invariants reflect what the code can create: active soft challenges are
CAPTCHA-pending and `captcha_failed`-typed rows are never written.) -/
theorem c3_amended_hard_cooldown_blocks (s : Settings) (now : Int) (db : DB)
    (bidder : UserRec) (itemId : Nat) (amount : ℚ)
    (hsb : bidder.is_superuser = false) (hab : bidder.bypass_all_restrictions = false)
    (hrb : bidder.bypass_rapid_bidding_check = false)
    (hcd : ∃ c ∈ db.cooldowns, c.user = bidder.id ∧ c.is_active = true ∧
      now < c.expires_at ∧ (c.item = some itemId ∨ c.item = none) ∧
      (c.cooldown_type = CooldownType.hard_cooldown ∨
        c.cooldown_type = CooldownType.suspended))
    (hinv : ∀ c ∈ db.cooldowns, c.is_active = true → c.user = bidder.id →
      (c.cooldown_type = CooldownType.soft_challenge → c.captcha_passed = false) ∧
      c.cooldown_type ≠ CooldownType.captcha_failed) :
    (place_bid s now db bidder itemId amount).1.success = false ∧
    (place_bid s now db bidder itemId amount).2.bids = db.bids := by
  unfold place_bid
  cases hfind : db.items.find? (fun i => decide (i.id = itemId)) with
  | none => exact ⟨rfl, rfl⟩
  | some item =>
    have hid : item.id = itemId := by
      have := List.find?_some hfind
      simpa using this
    dsimp only
    by_cases h1 : item.seller = bidder.id
    · rw [if_pos h1]; exact ⟨rfl, rfl⟩
    · rw [if_neg h1]
      by_cases h2 : item.status ≠ Status.active
      · rw [if_pos h2]; exact ⟨rfl, rfl⟩
      · rw [if_neg h2]
        by_cases h3 : item.end_time ≤ now
        · rw [if_pos h3]; exact ⟨rfl, rfl⟩
        · rw [if_neg h3]
          cases hcl : clean_amount item amount with
          | error e => exact ⟨rfl, rfl⟩
          | ok amt =>
            obtain ⟨c, hcmem, hcu, hca, hce, hcsc, _⟩ := hcd
            exact place_bid_admission_gate_blocked s now db bidder item amt hsb hab hrb
              (check_rapid_bidding_blocked s now db bidder.id item amt
                ⟨c, hcmem, hcu, hca, hce, hid.symm ▸ hcsc⟩ hinv)

/-- An active, unexpired global hard cooldown for user 9, in force at t = 1000. -/
def c3cdSuper : BidCooldown :=
  { user := 9, item := none, cooldown_type := CooldownType.hard_cooldown,
    reason := "excessive bidding", expires_at := 5000, created_at := 500,
    is_active := true, captcha_required := false, captcha_passed := false,
    failed_attempts := 0 }

/-- C3, counterexample to the claim as stated: user 9 is a superuser, so
`place_bid` skips the rapid-bidding gate entirely and admits the bid even though
an active global hard cooldown for user 9 is in force and unexpired. -/
theorem c3_counterexample :
    c3cdSuper.cooldown_type = CooldownType.hard_cooldown ∧
    c3cdSuper.is_active = true ∧ (1000 : Int) < c3cdSuper.expires_at ∧
    c3cdSuper.item = none ∧ c3cdSuper.user = 9 ∧
    (place_bid settingsQuiet 1000
      { items := [itemA], bids := [], cooldowns := [c3cdSuper], alerts := [],
        wallets := [] }
      { id := 9, date_joined := 0, is_superuser := true,
        bypass_all_restrictions := false, bypass_rapid_bidding_check := false,
        bypass_account_age_check := false, bypass_fraud_detection := false }
      1 510000).1.success = true := by
  refine ⟨by norm_num [c3cdSuper], by norm_num [c3cdSuper], by norm_num [c3cdSuper],
    by norm_num [c3cdSuper], by norm_num [c3cdSuper], ?_⟩
  norm_num [place_bid, place_bid_admission, gateStep, ageStep, fraudStep, check_rapid_bidding, get_active_cooldown,
    cleanup_expired, mostRecentCooldown, cooldownMatches, rapidWindowChecks,
    endgameMultiplier, is_auction_endgame, scaledThreshold, check_window,
    check_global_velocity_soft, check_global_velocity_hard,
    check_minimum_increment_pattern, sortByTimeAsc, countMinimalIncrements,
    create_soft_challenge, create_hard_cooldown, clean_amount, freshBidId,
    analyze_bid, detect_rapid_bidding, detect_bid_sniping, detect_unusual_bid_amount,
    detect_new_account_high_value, detect_self_bidding, detect_bid_pattern_anomaly,
    detect_shill_bidding_patterns, detect_low_win_frac, detect_seller_affinity,
    detect_bid_timing_pattern, detect_collusive_bidding, sortByTimeDesc,
    insertByTimeDesc, bidProgress, get_ai_fraud_assessment, itemById, mkAlert,
    commit_winning, clearWinning, setWinning, maxByAmount, itemA, c3cdSuper, List.find?, List.filter,
    settingsQuiet]

/-- An active, unexpired item-scoped hard cooldown for plain user 7 on item 1. -/
def c3cdPlain : BidCooldown :=
  { user := 7, item := some 1, cooldown_type := CooldownType.hard_cooldown,
    reason := "excessive bidding", expires_at := 5000, created_at := 500,
    is_active := true, captcha_required := false, captcha_passed := false,
    failed_attempts := 0 }

/-- C3 witness: the amended theorem applied to plain user 7 under an active
item-scoped hard cooldown — the bid is not admitted and the bid table is
unchanged. -/
theorem c3_witness :
    (place_bid settingsQuiet 1000
      { items := [itemA], bids := [], cooldowns := [c3cdPlain], alerts := [],
        wallets := [] } bidder7 1 510000).1.success = false ∧
    (place_bid settingsQuiet 1000
      { items := [itemA], bids := [], cooldowns := [c3cdPlain], alerts := [],
        wallets := [] } bidder7 1 510000).2.bids = [] :=
  c3_amended_hard_cooldown_blocks settingsQuiet 1000
    { items := [itemA], bids := [], cooldowns := [c3cdPlain], alerts := [],
      wallets := [] } bidder7 1 510000
    (by norm_num [bidder7]) (by norm_num [bidder7]) (by norm_num [bidder7])
    ⟨c3cdPlain, by norm_num, by norm_num [c3cdPlain, bidder7], by norm_num [c3cdPlain],
      by norm_num [c3cdPlain], Or.inl (by norm_num [c3cdPlain]),
      Or.inl (by norm_num [c3cdPlain])⟩
    (by
      intro c hc _ _
      have hc' : c = c3cdPlain := by simpa using hc
      subst hc'
      exact ⟨fun h => absurd h (by decide), by decide⟩)


/-! ## Claim C5 -/

/-- A conditional update matching zero rows aborts the purchase and leaves the
store untouched. -/
theorem buy_now_txn_zero (db : DB) (buyerId sellerId pk : Nat) (price : ℚ)
    (h : (db.items.filter (buyNowCond pk)).length = 0) :
    buy_now_txn db buyerId sellerId pk price =
      ({ success := false, message := "Someone else just purchased this item!" }, db) := by
  simp only [buy_now_txn]
  rw [if_pos h]

/-- C5: two buy-now attempts race on an active, unowned item with no bids. Both
pass the pre-transaction checks against the same snapshot; the two atomic
conditional updates then serialize in some order (`u1` first, `u2` second — both
orders are instances since the users are arbitrary). The first update matches the
active unowned row, succeeds, and leaves the item sold with the first buyer as
winner; the second observes zero affected rows, fails with the race message, and
changes nothing. -/
theorem c5_buy_now_race (now : Int) (db : DB) (u1 u2 : UserRec) (pk : Nat)
    (i0 : Item)
    (hfind : db.items.find? (fun i => decide (i.id = pk)) = some i0)
    (hch1 : buy_now_checks now db u1 i0 = none)
    (hch2 : buy_now_checks now db u2 i0 = none)
    (hmem : i0 ∈ db.items) (hid : i0.id = pk) (hact : i0.status = Status.active)
    (hw : i0.winner = none)
    (huniq : ∀ i ∈ db.items, i.id = pk → i = i0) :
    (buy_now now db u1 pk).1.success = true ∧
    (∀ i ∈ (buy_now now db u1 pk).2.items, i.id = pk →
      i.status = Status.sold ∧ i.winner = some u1.id) ∧
    (buy_now_txn (buy_now now db u1 pk).2 u2.id i0.seller pk
      (i0.buy_now_price.getD 0)).1 =
      { success := false, message := "Someone else just purchased this item!" } ∧
    (buy_now_txn (buy_now now db u1 pk).2 u2.id i0.seller pk
      (i0.buy_now_price.getD 0)).2 = (buy_now now db u1 pk).2 := by
  have hb1 : buy_now now db u1 pk =
      buy_now_txn db u1.id i0.seller pk (i0.buy_now_price.getD 0) := by
    unfold buy_now
    rw [hfind]
    dsimp only
    rw [hch1]
  have hcond0 : buyNowCond pk i0 = true := by
    simp [buyNowCond, hid, hact, hw]
  have hcount1 : ¬ (db.items.filter (buyNowCond pk)).length = 0 := by
    have hmf : i0 ∈ db.items.filter (buyNowCond pk) := List.mem_filter.mpr ⟨hmem, hcond0⟩
    have hne := List.ne_nil_of_mem hmf
    simpa [List.length_eq_zero] using hne
  have hsucc : (buy_now_txn db u1.id i0.seller pk (i0.buy_now_price.getD 0)).1.success
      = true := by
    simp only [buy_now_txn]
    rw [if_neg hcount1]
  have hitems1 : (buy_now_txn db u1.id i0.seller pk (i0.buy_now_price.getD 0)).2.items
      = db.items.map (fun i =>
          if buyNowCond pk i then { i with status := Status.sold, winner := some u1.id }
          else i) := by
    simp only [buy_now_txn]
    rw [if_neg hcount1]
  have hpost : ∀ i ∈ (buy_now_txn db u1.id i0.seller pk
      (i0.buy_now_price.getD 0)).2.items, i.id = pk →
      i.status = Status.sold ∧ i.winner = some u1.id := by
    rw [hitems1]
    intro i hi hip
    obtain ⟨i', hi', hfi⟩ := List.mem_map.mp hi
    by_cases hc : buyNowCond pk i' = true
    · rw [if_pos hc] at hfi
      rw [← hfi]
      exact ⟨rfl, rfl⟩
    · rw [if_neg hc] at hfi
      subst hfi
      exact absurd (by rw [huniq i' hi' hip]; exact hcond0) hc
  have hfilter2 : ((buy_now_txn db u1.id i0.seller pk
      (i0.buy_now_price.getD 0)).2.items.filter (buyNowCond pk)) = [] := by
    rw [hitems1, List.filter_eq_nil_iff]
    intro i hi
    obtain ⟨i', hi', hfi⟩ := List.mem_map.mp hi
    by_cases hc : buyNowCond pk i' = true
    · rw [if_pos hc] at hfi
      rw [← hfi]
      simp [buyNowCond]
    · rw [if_neg hc] at hfi
      rw [← hfi]
      intro hcc
      exact hc hcc
  have hzero : ((buy_now_txn db u1.id i0.seller pk
      (i0.buy_now_price.getD 0)).2.items.filter (buyNowCond pk)).length = 0 := by
    rw [hfilter2]
    rfl
  have htxn2 := buy_now_txn_zero
    (buy_now_txn db u1.id i0.seller pk (i0.buy_now_price.getD 0)).2 u2.id i0.seller
    pk (i0.buy_now_price.getD 0) hzero
  rw [hb1]
  exact ⟨hsucc, hpost, by rw [htxn2], by rw [htxn2]⟩

/-- A second plain bidder (user 8). -/
def bidder8 : UserRec :=
  { id := 8, date_joined := 0, is_superuser := false,
    bypass_all_restrictions := false, bypass_rapid_bidding_check := false,
    bypass_account_age_check := false, bypass_fraud_detection := false }

/-- The bid-free store for the C5 race: item 2 with Buy Now at 800,000, wallets
for users 7 and 8. -/
def c5db : DB :=
  { items := [itemBN], bids := [], cooldowns := [], alerts := [],
    wallets := [{ user := 7, balance := 900000 }, { user := 8, balance := 900000 }] }

/-- C5 witness: the race theorem applied to users 7 and 8 buying item 2. -/
theorem c5_witness :
    (buy_now 1000 c5db bidder7 2).1.success = true ∧
    (∀ i ∈ (buy_now 1000 c5db bidder7 2).2.items, i.id = 2 →
      i.status = Status.sold ∧ i.winner = some bidder7.id) ∧
    (buy_now_txn (buy_now 1000 c5db bidder7 2).2 bidder8.id itemBN.seller 2
      (itemBN.buy_now_price.getD 0)).1 =
      { success := false, message := "Someone else just purchased this item!" } ∧
    (buy_now_txn (buy_now 1000 c5db bidder7 2).2 bidder8.id itemBN.seller 2
      (itemBN.buy_now_price.getD 0)).2 = (buy_now 1000 c5db bidder7 2).2 :=
  c5_buy_now_race 1000 c5db bidder7 bidder8 2 itemBN
    (by norm_num [c5db, List.find?, itemBN])
    (by norm_num [buy_now_checks, c5db, itemBN, bidder7, List.find?])
    (by norm_num [buy_now_checks, c5db, itemBN, bidder8, List.find?])
    (by norm_num [c5db]) (by norm_num [itemBN]) (by norm_num [itemBN])
    (by norm_num [itemBN])
    (by
      intro i hi _
      have hii : i = itemBN := by simpa [c5db] using hi
      exact hii)

/-! ## Claim C1 -/

/-- `maxByAmount` returns `none` exactly on the empty table. -/
theorem maxByAmount_eq_none {l : List Bid} :
    maxByAmount l = none ↔ l = [] := by
  cases l with
  | nil => simp [maxByAmount]
  | cons b bs =>
    simp only [maxByAmount]
    constructor
    · intro h
      cases hm : maxByAmount bs <;> rw [hm] at h <;> dsimp only at h
      · simp at h
      · split at h <;> simp at h
    · intro h; exact List.noConfusion h

/-- The highest bid selected by `maxByAmount` is a row of the table. -/
theorem maxByAmount_mem {l : List Bid} :
    ∀ {m : Bid}, maxByAmount l = some m → m ∈ l := by
  induction l with
  | nil => intro m h; simp [maxByAmount] at h
  | cons b bs ih =>
    intro m h
    simp only [maxByAmount] at h
    cases hm : maxByAmount bs with
    | none => rw [hm] at h; simp at h; simp [h]
    | some mm =>
      rw [hm] at h
      dsimp only at h
      by_cases hcmp : mm.amount > b.amount
      · rw [if_pos hcmp] at h; simp at h; subst h
        exact List.mem_cons_of_mem _ (ih hm)
      · rw [if_neg hcmp] at h; simp at h; simp [h]

/-- The bid selected by `maxByAmount` has the greatest amount in the table. -/
theorem maxByAmount_maximal {l : List Bid} :
    ∀ {m : Bid}, maxByAmount l = some m → ∀ x ∈ l, x.amount ≤ m.amount := by
  induction l with
  | nil => intro m h; simp [maxByAmount] at h
  | cons b bs ih =>
    intro m h x hx
    simp only [maxByAmount] at h
    cases hm : maxByAmount bs with
    | none =>
      rw [hm] at h; simp at h
      have hnil : bs = [] := maxByAmount_eq_none.mp hm
      subst hnil
      rcases List.mem_cons.mp hx with hxb | hxbs
      · simp [hxb, h]
      · simp at hxbs
    | some mm =>
      rw [hm] at h
      dsimp only at h
      by_cases hcmp : mm.amount > b.amount
      · rw [if_pos hcmp] at h; simp at h; subst h
        rcases List.mem_cons.mp hx with hxb | hxbs
        · subst hxb; exact le_of_lt hcmp
        · exact ih hm x hxbs
      · rw [if_neg hcmp] at h; simp at h; subst h
        rcases List.mem_cons.mp hx with hxb | hxbs
        · subst hxb; exact le_refl _
        · exact le_trans (ih hm x hxbs) (le_of_not_lt hcmp)

/-- A nonempty table always yields a highest bid. -/
theorem maxByAmount_isSome {l : List Bid} (h : l ≠ []) :
    (maxByAmount l).isSome := by
  cases l with
  | nil => exact absurd rfl h
  | cons b bs =>
    simp only [maxByAmount]
    cases maxByAmount bs with
    | none => simp
    | some m => simp only; split <;> simp

/-- Marking the winning row by primary key in a table whose rows for the item
all have `is_winning = false` leaves exactly one winning row for the item: the
marked one (row ids must be distinct, as primary keys are). -/
theorem setWinning_filter (itemId : Nat) (hb : Bid) :
    ∀ l : List Bid, (l.map Bid.id).Nodup → hb ∈ l → hb.item = itemId →
      (∀ b ∈ l, b.item = itemId → b.is_winning = false) →
      ((l.map (setWinning (Bid.id hb))).filter
        (fun b => decide (b.item = itemId) && b.is_winning)) =
        [{ hb with is_winning := true }] := by
  intro l
  induction l with
  | nil => intro _ hmem; simp at hmem
  | cons c cs ih =>
    intro hnodup hmem hitem hfalse
    simp only [List.map_cons, List.nodup_cons] at hnodup
    obtain ⟨hcnotin, hnodup2⟩ := hnodup
    rcases List.mem_cons.mp hmem with hch | hcs
    · subst hch
      rw [List.map_cons, List.filter_cons]
      have hhead : setWinning hb.id hb = { hb with is_winning := true } := by
        unfold setWinning; rw [if_pos rfl]
      rw [hhead]
      rw [if_pos (by simp [hitem])]
      have htail : (cs.map (setWinning hb.id)).filter
          (fun b => decide (b.item = itemId) && b.is_winning) = [] := by
        rw [List.filter_eq_nil_iff]
        intro a hamem
        obtain ⟨b1, hb1, rfl⟩ := List.mem_map.mp hamem
        have hbne : b1.id ≠ hb.id := by
          intro hcontra
          exact hcnotin (hcontra ▸ List.mem_map_of_mem Bid.id hb1)
        have hsw : setWinning hb.id b1 = b1 := by
          unfold setWinning; rw [if_neg hbne]
        rw [hsw]
        by_cases hbi : b1.item = itemId
        · simp [hfalse b1 (List.mem_cons_of_mem _ hb1) hbi]
        · simp [hbi]
      rw [htail]
    · have hcne : c.id ≠ hb.id := by
        intro hcontra
        exact hcnotin (hcontra ▸ List.mem_map_of_mem Bid.id hcs)
      rw [List.map_cons, List.filter_cons]
      have hhead : setWinning hb.id c = c := by
        unfold setWinning; rw [if_neg hcne]
      rw [hhead]
      rw [if_neg (by
        by_cases hbi : c.item = itemId
        · simp [hfalse c (List.mem_cons_self c cs) hbi]
        · simp [hbi])]
      exact ih hnodup2 hcs hitem
        (fun b hbm hbi => hfalse b (List.mem_cons_of_mem _ hbm) hbi)

/-- The commit step on a table that contains at least one bid for the item and
whose row ids are distinct: exactly one row for the item ends up `is_winning`,
it carries the greatest amount among the item rows, and every row of the item
in the items table gets `current_price` set to that amount. -/
theorem commit_winning_spec (db : DB) (item : Item)
    (hnodup : (db.bids.map Bid.id).Nodup)
    (hne : ∃ b ∈ db.bids, b.item = item.id) :
    ∃ w : Bid, w.item = item.id ∧ w.is_winning = true ∧
      ((commit_winning db item).bids.filter
        (fun b => decide (b.item = item.id) && b.is_winning)) = [w] ∧
      (∀ b ∈ (commit_winning db item).bids, b.item = item.id → b.amount ≤ w.amount) ∧
      (∀ i ∈ (commit_winning db item).items, i.id = item.id →
        i.current_price = w.amount) := by
  obtain ⟨b0, hb0mem, hb0item⟩ := hne
  have hclear_id : ∀ b : Bid, (clearWinning item.id b).id = b.id := by
    intro b; unfold clearWinning; split <;> rfl
  have hclear_item : ∀ b : Bid, (clearWinning item.id b).item = b.item := by
    intro b; unfold clearWinning; split <;> rfl
  have hclear_amount : ∀ b : Bid, (clearWinning item.id b).amount = b.amount := by
    intro b; unfold clearWinning; split <;> rfl
  have hclear_win : ∀ b : Bid, b.item = item.id →
      (clearWinning item.id b).is_winning = false := by
    intro b h; unfold clearWinning; rw [if_pos h]
  have hsw_item : ∀ (w : Nat) (b : Bid), (setWinning w b).item = b.item := by
    intro w b; unfold setWinning; split <;> rfl
  have hsw_amount : ∀ (w : Nat) (b : Bid), (setWinning w b).amount = b.amount := by
    intro w b; unfold setWinning; split <;> rfl
  have hnodup1 : ((db.bids.map (clearWinning item.id)).map Bid.id).Nodup := by
    rw [List.map_map]
    have hfun : (Bid.id ∘ clearWinning item.id) = Bid.id :=
      funext fun b => hclear_id b
    rw [hfun]
    exact hnodup
  have hmem1 : clearWinning item.id b0 ∈ db.bids.map (clearWinning item.id) :=
    List.mem_map_of_mem _ hb0mem
  have hfilt_ne : (db.bids.map (clearWinning item.id)).filter
      (fun b => decide (b.item = item.id)) ≠ [] := by
    intro hnil
    have hin : clearWinning item.id b0 ∈ (db.bids.map (clearWinning item.id)).filter
        (fun b => decide (b.item = item.id)) :=
      List.mem_filter.mpr ⟨hmem1, by rw [hclear_item]; simp [hb0item]⟩
    rw [hnil] at hin
    simp at hin
  obtain ⟨hb, hhb⟩ := Option.isSome_iff_exists.mp (maxByAmount_isSome hfilt_ne)
  have hhb_mem := maxByAmount_mem hhb
  rw [List.mem_filter] at hhb_mem
  obtain ⟨hhb_mem1, hhb_pred⟩ := hhb_mem
  have hhb_item : hb.item = item.id := of_decide_eq_true hhb_pred
  have hcleared : ∀ b ∈ db.bids.map (clearWinning item.id),
      b.item = item.id → b.is_winning = false := by
    intro b hbm hbitem
    obtain ⟨b1, hb1, rfl⟩ := List.mem_map.mp hbm
    rw [hclear_item] at hbitem
    exact hclear_win b1 hbitem
  have hbids2 : (commit_winning db item).bids =
      (db.bids.map (clearWinning item.id)).map (setWinning hb.id) := by
    simp only [commit_winning]
    rw [hhb]
  have hitems2 : (commit_winning db item).items =
      db.items.map (fun i => if i.id = item.id then
        { i with current_price := hb.amount, bid_count := item.bid_count + 1 }
        else i) := by
    simp only [commit_winning]
    rw [hhb]
  refine ⟨{ hb with is_winning := true }, hhb_item, rfl, ?_, ?_, ?_⟩
  · rw [hbids2]
    exact setWinning_filter item.id hb (db.bids.map (clearWinning item.id))
      hnodup1 hhb_mem1 hhb_item hcleared
  · intro b hbm hbitem
    rw [hbids2] at hbm
    obtain ⟨b1, hb1, rfl⟩ := List.mem_map.mp hbm
    rw [hsw_item] at hbitem
    have hb1f : b1 ∈ (db.bids.map (clearWinning item.id)).filter
        (fun b => decide (b.item = item.id)) :=
      List.mem_filter.mpr ⟨hb1, by simp [hbitem]⟩
    have hle := maxByAmount_maximal hhb b1 hb1f
    rw [hsw_amount]
    exact hle
  · intro i him hid
    rw [hitems2] at him
    obtain ⟨i1, hi1, rfl⟩ := List.mem_map.mp him
    by_cases h : i1.id = item.id
    · rw [if_pos h]
    · rw [if_neg h] at hid ⊢
      exact absurd hid h

/-- The gate step never touches the bid table. -/
theorem gateStep_bids (s : Settings) (now : Int) (db : DB) (bidder : UserRec)
    (item : Item) (amount : ℚ) :
    (gateStep s now db bidder item amount).db.bids = db.bids := by
  simp only [gateStep]
  split
  · rfl
  · split
    · exact check_rapid_bidding_bids _ _ _ _ _ _
    · split
      · exact check_rapid_bidding_bids _ _ _ _ _ _
      · exact check_rapid_bidding_bids _ _ _ _ _ _

/-- A successful admission always goes through `commit_winning` on a store that
contains the new bid for the item, with row ids still distinct when they were
distinct before (the tentative id is fresh). -/
theorem place_bid_admission_success_spec (s : Settings) (now : Int) (db : DB)
    (bidder : UserRec) (item : Item) (amount : ℚ)
    (hnodup : (db.bids.map Bid.id).Nodup)
    (h : (place_bid_admission s now db bidder item amount).1.success = true) :
    ∃ db2 : DB,
      (place_bid_admission s now db bidder item amount).2 = commit_winning db2 item ∧
      (∃ b ∈ db2.bids, b.item = item.id) ∧ (db2.bids.map Bid.id).Nodup := by
  simp only [place_bid_admission] at h ⊢
  split at h
  · exact absurd h (by simp)
  · rename_i hfr
    rw [if_neg hfr]
    refine ⟨_, rfl, ?_, ?_⟩
    · rw [fraudStep_bids]
      dsimp only
      exact ⟨_, List.mem_append_right _ (List.mem_singleton_self _), rfl⟩
    · rw [fraudStep_bids]
      dsimp only
      rw [ageStep_db, gateStep_bids, List.map_append]
      dsimp only [List.map_cons, List.map_nil]
      refine List.Nodup.append hnodup (List.nodup_singleton _) ?_
      intro a ha hain
      rw [List.mem_singleton] at hain
      subst hain
      obtain ⟨b1, hb1, hbid⟩ := List.mem_map.mp ha
      exact absurd hbid (Nat.ne_of_lt (id_lt_freshBidId db.bids b1 hb1))

/-- C1: after any `place_bid` attempt that commits successfully (on a store
whose bid row ids are distinct, as primary keys are), exactly one bid row for
the item has `is_winning = true`, that row has the greatest amount among the
item's bid rows, and the item's `current_price` equals that amount. -/
theorem c1_winning_invariants (s : Settings) (now : Int) (db : DB)
    (bidder : UserRec) (itemId : Nat) (amount : ℚ)
    (hnodup : (db.bids.map Bid.id).Nodup)
    (hsucc : (place_bid s now db bidder itemId amount).1.success = true) :
    ∃ w : Bid, w.item = itemId ∧ w.is_winning = true ∧
      ((place_bid s now db bidder itemId amount).2.bids.filter
        (fun b => decide (b.item = itemId) && b.is_winning)) = [w] ∧
      (∀ b ∈ (place_bid s now db bidder itemId amount).2.bids,
        b.item = itemId → b.amount ≤ w.amount) ∧
      (∀ i ∈ (place_bid s now db bidder itemId amount).2.items,
        i.id = itemId → i.current_price = w.amount) := by
  unfold place_bid at hsucc ⊢
  cases hfind : db.items.find? (fun i => decide (i.id = itemId)) with
  | none =>
    rw [hfind] at hsucc
    simp at hsucc
  | some item =>
    rw [hfind] at hsucc
    have hfp := List.find?_some hfind
    have hitem_id : item.id = itemId := by simpa using hfp
    dsimp only at hsucc ⊢
    by_cases h1 : item.seller = bidder.id
    · rw [if_pos h1] at hsucc; simp at hsucc
    rw [if_neg h1] at hsucc ⊢
    by_cases h2 : item.status ≠ Status.active
    · rw [if_pos h2] at hsucc; simp at hsucc
    rw [if_neg h2] at hsucc ⊢
    by_cases h3 : item.end_time ≤ now
    · rw [if_pos h3] at hsucc; simp at hsucc
    rw [if_neg h3] at hsucc ⊢
    cases hcl : clean_amount item amount with
    | error e =>
      rw [hcl] at hsucc
      simp at hsucc
    | ok amt =>
      rw [hcl] at hsucc
      dsimp only at hsucc ⊢
      obtain ⟨db2, hdb2, hne2, hnodup2⟩ :=
        place_bid_admission_success_spec s now db bidder item amt hnodup hsucc
      rw [hdb2, ← hitem_id]
      exact commit_winning_spec db2 item hnodup2 hne2

/-- The bid-free store holding the single auction `itemA`. -/
def c1db : DB :=
  { items := [itemA], bids := [], cooldowns := [], alerts := [], wallets := [] }

/-- C1 witness: the invariants theorem applied to a concrete committed bid of
510,000 by user 7 on item 1. -/
theorem c1_witness :
    ∃ w : Bid, w.item = 1 ∧ w.is_winning = true ∧
      ((place_bid settingsQuiet 1000 c1db bidder7 1 510000).2.bids.filter
        (fun b => decide (b.item = 1) && b.is_winning)) = [w] ∧
      (∀ b ∈ (place_bid settingsQuiet 1000 c1db bidder7 1 510000).2.bids,
        b.item = 1 → b.amount ≤ w.amount) ∧
      (∀ i ∈ (place_bid settingsQuiet 1000 c1db bidder7 1 510000).2.items,
        i.id = 1 → i.current_price = w.amount) :=
  c1_winning_invariants settingsQuiet 1000 c1db bidder7 1 510000
    (by simp [c1db])
    (by norm_num [place_bid, place_bid_admission, gateStep, ageStep, fraudStep,
      check_rapid_bidding, get_active_cooldown,
      cleanup_expired, mostRecentCooldown, cooldownMatches, rapidWindowChecks,
      endgameMultiplier, is_auction_endgame, scaledThreshold, check_window,
      check_global_velocity_soft, check_global_velocity_hard,
      check_minimum_increment_pattern, sortByTimeAsc, countMinimalIncrements,
      create_soft_challenge, create_hard_cooldown, clean_amount, freshBidId,
      analyze_bid, detect_rapid_bidding, detect_bid_sniping, detect_unusual_bid_amount,
      detect_new_account_high_value, detect_self_bidding, detect_bid_pattern_anomaly,
      detect_shill_bidding_patterns, detect_low_win_frac, detect_seller_affinity,
      detect_bid_timing_pattern, detect_collusive_bidding, sortByTimeDesc,
      insertByTimeDesc, bidProgress, get_ai_fraud_assessment, itemById, mkAlert,
      commit_winning, clearWinning, setWinning, maxByAmount, itemA, bidder7,
      c1db, List.find?, List.filter, List.dedup, settingsQuiet])


/-! ## Claim C8 -/

/-- A historical bid of user 7 on item 1 (UGX 10,000 at time 0). -/
def c8prior (n : Nat) : Bid :=
  { id := n, item := 1, bidder := 7, amount := 10000, bid_time := 0,
    is_winning := false }

/-- Settings under which the pattern-anomaly detector has enough history to run
(minimum history 3); every other threshold stays unreachable. -/
def c8settings : Settings := { settingsQuiet with BID_PATTERN_MIN_HISTORY := 3 }

/-- The pre-request store: item 1 with three prior bids by user 7 and no alert
rows. -/
def c8db : DB :=
  { items := [itemA], bids := [c8prior 1, c8prior 2, c8prior 3],
    cooldowns := [], alerts := [], wallets := [] }

/-- The tentative bid row `place_bid` saves for the request (fresh id 4). -/
def c8bid : Bid :=
  { id := 4, item := 1, bidder := 7, amount := 900000, bid_time := 1000,
    is_winning := false }

/-- The store as the fraud battery sees it: the tentative bid row appended. -/
def c8dbSaved : DB := { c8db with bids := c8db.bids ++ [c8bid] }

/-- C8, divergence at a concrete failing input: user 7, holder of three prior
bids, bids 900,000 on item 1 with the pattern-anomaly history minimum at 3. The
tentative row gets the fresh id 4; on the saved store the battery produces a
medium `unusual_bid_amount` alert for it (900,000 is more than triple the item
average of 232,500), but `detect_bid_pattern_anomaly` then evaluates a queryset
ordered by the nonexistent `Bid.created_at` column and raises `FieldError`, so
`analyze_bid` aborts before its save loop; the view swallows the exception and
admits the bid. The produced alert is never persisted — the final alerts table
is empty, contradicting the claim that every alert produced for a tentatively
recorded bid is saved regardless of the admission outcome. -/
theorem c8_field_error_drops_produced_alerts :
    freshBidId c8db.bids = c8bid.id ∧
    detect_unusual_bid_amount c8settings c8dbSaved c8bid =
      [mkAlert 7 (some 1) ("unusual_bid_amount") Severity.medium] ∧
    analyze_bid c8settings 1000 c8dbSaved c8bid bidder7 itemA =
      Except.error
        ("FieldError: cannot resolve keyword created_at into a field of Bid") ∧
    (place_bid c8settings 1000 c8db bidder7 1 900000).1.success = true ∧
    (place_bid c8settings 1000 c8db bidder7 1 900000).2.alerts = [] := by
  refine ⟨by norm_num [freshBidId, c8db, c8prior, c8bid], ?_, ?_, ?_, ?_⟩
  · norm_num [detect_unusual_bid_amount, c8settings, settingsQuiet, c8dbSaved,
      c8db, c8prior, c8bid, List.filter]
  · norm_num [analyze_bid, bind, Except.bind, detect_rapid_bidding,
      detect_bid_sniping, detect_unusual_bid_amount, detect_new_account_high_value,
      detect_self_bidding, detect_bid_pattern_anomaly, c8settings, settingsQuiet,
      c8dbSaved, c8db, c8prior, c8bid, bidder7, itemA, List.filter]
  · norm_num [place_bid, place_bid_admission, gateStep, ageStep, fraudStep,
      check_rapid_bidding, get_active_cooldown,
      cleanup_expired, mostRecentCooldown, cooldownMatches, rapidWindowChecks,
      endgameMultiplier, is_auction_endgame, scaledThreshold, check_window,
      check_global_velocity_soft, check_global_velocity_hard,
      check_minimum_increment_pattern, sortByTimeAsc, countMinimalIncrements,
      create_soft_challenge, create_hard_cooldown, clean_amount, freshBidId,
      analyze_bid, bind, Except.bind, detect_rapid_bidding, detect_bid_sniping,
      detect_unusual_bid_amount,
      detect_new_account_high_value, detect_self_bidding, detect_bid_pattern_anomaly,
      commit_winning, clearWinning, setWinning, maxByAmount, itemA, bidder7,
      c8settings, c8db, c8prior, List.find?, List.filter, settingsQuiet]
  · norm_num [place_bid, place_bid_admission, gateStep, ageStep, fraudStep,
      check_rapid_bidding, get_active_cooldown,
      cleanup_expired, mostRecentCooldown, cooldownMatches, rapidWindowChecks,
      endgameMultiplier, is_auction_endgame, scaledThreshold, check_window,
      check_global_velocity_soft, check_global_velocity_hard,
      check_minimum_increment_pattern, sortByTimeAsc, countMinimalIncrements,
      create_soft_challenge, create_hard_cooldown, clean_amount, freshBidId,
      analyze_bid, bind, Except.bind, detect_rapid_bidding, detect_bid_sniping,
      detect_unusual_bid_amount,
      detect_new_account_high_value, detect_self_bidding, detect_bid_pattern_anomaly,
      commit_winning, clearWinning, setWinning, maxByAmount, itemA, bidder7,
      c8settings, c8db, c8prior, List.find?, List.filter, settingsQuiet]


end AuctionSys
